import Mathlib

/-!
# DirectVolume (system/vold/DirectVolume.cpp): a shallow embedding

The volume state machine of `DirectVolume.cpp` is translated function by
function.  Conventions:

* C strings are `String`s; `strcmp(a, b) == 0` is `a = b`, and
  `strncmp(path, pattern, strlen(pattern)) == 0` is "pattern is a prefix of
  path".
* `int` values are `Int`s.  The only arithmetic in the file is `part_num - 1`
  and `new_minor - 1`, used as array indices.
* A netlink event is the record of its decoded parameters (`atoi` already
  applied), an optional parameter being `none` when `findParam` yields NULL.
* Calls to collaborators (broadcaster, volume manager, base-class mount and
  unmount, `createDeviceNode`) are recorded in order in an effect list; what
  they return, and what they do to the base-class fields, is supplied by a
  `Collaborators` record.
* An array access outside `[0, MAX_PARTITIONS)` is undefined behaviour in C;
  the functions that can perform one return `Option`, `none` meaning that the
  access is out of bounds.
* The preprocessor symbols `MOUNT_MULTI_PART` and `PATCH_FOR_SLSIAP` and the
  constant `MAX_PARTITIONS` are not defined in `DirectVolume.cpp`; they are
  fields of `BuildConfig`.  `DirectVolume.cpp` itself defines neither symbol,
  so the build it describes on its own is the one with both symbols
  undefined.
-/

namespace DirectVolume

/-! ## Build configuration and collaborator-facing types -/

/-- Build-time constants used by `DirectVolume.cpp` and defined elsewhere. -/
structure BuildConfig where
  /-- Size of `mPartMinors` and `mOrigPartMinors`. -/
  MAX_PARTITIONS : Nat
  /-- Whether `MOUNT_MULTI_PART` is defined. -/
  MOUNT_MULTI_PART : Bool
  /-- Whether `PATCH_FOR_SLSIAP` is defined. -/
  PATCH_FOR_SLSIAP : Bool
  deriving DecidableEq, Repr

/-- Modelled from the spec: the lifecycle states of the absent `Volume.h`
(`Volume::State_*`).  The six named constructors are the enumerators that
`DirectVolume.cpp` and the spec name; `Other` stands for any further
enumerator of the header. -/
inductive State where
  | NoMedia
  | Pending
  | Idle
  | Formatting
  | Mounted
  | Shared
  | Other (code : Int)
  deriving DecidableEq, Repr

/-- The value of `NetlinkEvent::getAction()`. -/
inductive Action where
  | NlActionAdd
  | NlActionRemove
  | NlActionChange
  | NlActionUnknown
  deriving DecidableEq, Repr

/-- A decoded kernel block event: the parameters `handleBlockEvent` and its
handlers read with `findParam`, numeric ones already passed through `atoi`. -/
structure NetlinkEvent where
  action : Action
  DEVPATH : String
  DEVTYPE : String
  MAJOR : Int
  MINOR : Int
  NPARTS : Option Int
  PARTN : Option Int
  deriving DecidableEq, Repr

/-- The broadcast codes `DirectVolume.cpp` sends. -/
inductive ResponseCode where
  | VolumeDiskInserted
  | VolumeDiskRemoved
  | VolumeBadRemoval
  deriving DecidableEq, Repr

/-- A call made to a collaborator, as recorded in the effect list. -/
inductive Effect where
  | createDeviceNode (major minor : Int)
  | sendBroadcast (code : ResponseCode) (major minor : Int)
  | mountVol
  | unmountVol (force revert : Bool)
  | cleanupAsec (force : Bool)
  | unshareVolume
  deriving DecidableEq, Repr

/-- The value `handleBlockEvent` stores in `errno`. -/
inductive Errno where
  | ENODEV
  deriving DecidableEq, Repr

/-! ## PathInfo -/

/-- The two pattern kinds of `PathInfo` (`prefix` and `wildcard` in the
source). -/
inductive PatternType where
  | prefixPattern
  | wildcardPattern
  deriving DecidableEq, Repr

/-- One configured sysfs path pattern. -/
structure PathInfo where
  pattern : String
  patternType : PatternType
  warned : Bool
  deriving DecidableEq, Repr

/-- The constructor `PathInfo::PathInfo(const char *p)`: the kind is
`wildcard` exactly when `strchr(pattern, '*')` finds a star. -/
def PathInfo.new (p : String) : PathInfo :=
  { pattern := p
    patternType :=
      if p.data.contains '*' then PatternType.wildcardPattern
      else PatternType.prefixPattern
    warned := false }

/-- What one call of `PathInfo::match` yields: the returned boolean, the
pattern object afterwards, and whether the deprecation warning was logged. -/
structure MatchResult where
  ret : Bool
  info : PathInfo
  warning : Bool
  deriving DecidableEq, Repr

/-- The method `PathInfo::match(const char *path)`; `fnmatch p s` tells
whether the libc call `fnmatch(p, s, 0)` returns 0. -/
def PathInfo.matches (fnmatch : String → String → Bool) (pi : PathInfo)
    (path : String) : MatchResult :=
  match pi.patternType with
  | PatternType.prefixPattern =>
    let ret := pi.pattern.data.isPrefixOf path.data
    if !pi.warned && ret && (pi.pattern.data.length != path.data.length) then
      { ret := ret, info := { pi with warned := true }, warning := true }
    else
      { ret := ret, info := pi, warning := false }
  | PatternType.wildcardPattern =>
    { ret := fnmatch pi.pattern path, info := pi, warning := false }

/-! ## The volume -/

/-- The fields of a `DirectVolume` object that `DirectVolume.cpp` reads or
writes, those inherited from the base class `Volume` included. -/
structure Volume where
  mPaths : List PathInfo
  mPartMinors : List Int
  mOrigPartMinors : List Int
  mDiskMajor : Int
  mDiskMinor : Int
  mDiskNumParts : Int
  mOrigDiskMajor : Int
  mOrigDiskMinor : Int
  mOrigPartIdx : Int
  mIsDecrypted : Int
  mDevPath : Option String
  /-- Base class: 1-based partition selector, -1 for the whole set. -/
  mPartIdx : Int
  /-- Base class: lifecycle state, read by `getState()`. -/
  mState : State
  /-- Base class: `dev_t` of the mounted partition. -/
  mCurrentlyMountedKdev : Int
  /-- Base class: retry the mount once the partitions are there. -/
  mRetryMount : Bool
  /-- Base class: `getLabel()`. -/
  mLabel : String
  /-- Base class: `(getFlags() & VOL_PROVIDES_ASEC) != 0`. -/
  providesAsec : Bool
  deriving DecidableEq, Repr

/-- What a state-changing collaborator call leaves behind: its return value
and the base-class fields it owns. -/
structure CallResult where
  ret : Int
  mState : State
  mCurrentlyMountedKdev : Int
  mRetryMount : Bool
  deriving DecidableEq, Repr

/-- Modelled from the spec: the collaborators that are absent from the
sources (libc `fnmatch`, the `MKDEV` macro, `Volume::createDeviceNode`,
`Volume::mountVol`, `Volume::unmountVol`, and the volume manager's
`shareEnabled`, `unshareVolume` and `cleanupAsec`).  Each is an arbitrary
function of its arguments and of the volume at the time of the call; per the
spec the mount, unmount and share side "only flips" the base-class state
fields, which is what a `CallResult` carries. -/
structure Collaborators where
  fnmatch : String → String → Bool
  MKDEV : Int → Int → Int
  createDeviceNode : Int → Int → Int
  mountVol : Volume → CallResult
  unmountVol : Volume → Bool → Bool → CallResult
  shareEnabled : Volume → Int × Bool
  unshareVolume : Volume → CallResult
  cleanupAsec : Volume → Bool → Int

/-- The volume after a state-changing collaborator call. -/
def Volume.afterCall (v : Volume) (c : CallResult) : Volume :=
  { v with mState := c.mState
           mCurrentlyMountedKdev := c.mCurrentlyMountedKdev
           mRetryMount := c.mRetryMount }

/-- Modelled from the spec: `Volume::setState` of the absent base class; the
state field is owned by the base abstraction and `setState` stores the new
state. -/
def Volume.setState (v : Volume) (s : State) : Volume :=
  { v with mState := s }

/-- The accessor `getState()`. -/
def Volume.getState (v : Volume) : State := v.mState

/-- The values the base-class constructor `Volume(vm, rec, flags)` and the
uninitialised members contribute to a new object. -/
structure BaseInit where
  mLabel : String
  mPartIdx : Int
  providesAsec : Bool
  mRetryMount : Bool
  mCurrentlyMountedKdev : Int
  mOrigPartMinors : List Int
  mOrigDiskMajor : Int
  mOrigDiskMinor : Int
  mOrigPartIdx : Int
  deriving DecidableEq, Repr

/-- The constructor `DirectVolume::DirectVolume`. -/
def construct (cfg : BuildConfig) (b : BaseInit) : Volume :=
  Volume.setState
    { mPaths := []
      mPartMinors := List.replicate cfg.MAX_PARTITIONS (-1)
      mOrigPartMinors := b.mOrigPartMinors
      mDiskMajor := -1
      mDiskMinor := -1
      mDiskNumParts := 0
      mOrigDiskMajor := b.mOrigDiskMajor
      mOrigDiskMinor := b.mOrigDiskMinor
      mOrigPartIdx := b.mOrigPartIdx
      mIsDecrypted := 0
      mDevPath := none
      mPartIdx := b.mPartIdx
      mState := State.Other (-1)
      mCurrentlyMountedKdev := b.mCurrentlyMountedKdev
      mRetryMount := b.mRetryMount
      mLabel := b.mLabel
      providesAsec := b.providesAsec }
    State.NoMedia

/-- The method `DirectVolume::addPath`. -/
def addPath (v : Volume) (path : String) : Volume :=
  { v with mPaths := v.mPaths ++ [PathInfo.new path] }

/-- The assignment `a[idx] = val` on an array of `size` elements: `none` when
`idx` is outside `[0, size)`. -/
def storeSlot (size : Nat) (a : List Int) (idx val : Int) : Option (List Int) :=
  if 0 ≤ idx ∧ idx < (size : Int) then some (a.set idx.toNat val) else none

/-- The read `a[idx]` on an array of `size` elements: `none` when `idx` is
outside `[0, size)`. -/
def loadSlot (size : Nat) (a : List Int) (idx : Int) : Option Int :=
  if 0 ≤ idx ∧ idx < (size : Int) then a[idx.toNat]? else none

/-- The loop `for (i = 0; i < MAX_PARTITIONS; i++) mPartMinors[i] = -1`. -/
def clearPartMinors (cfg : BuildConfig) : List Int :=
  List.replicate cfg.MAX_PARTITIONS (-1)

/-! ## Event handlers -/

/-- The expected partition count read from `NPARTS` by `handleDiskAdded` and
`handleDiskChanged`: 1 when the parameter is missing, clamped to 1 under
`MOUNT_MULTI_PART`. -/
def readNumParts (cfg : BuildConfig) (evt : NetlinkEvent) : Int :=
  match evt.NPARTS with
  | some n => if cfg.MOUNT_MULTI_PART && decide (n > 1) then 1 else n
  | none => 1

/-- The partition number read from `PARTN` by `handlePartitionAdded`: 1 when
the parameter is missing, clamped to 1 under `MOUNT_MULTI_PART`. -/
def readPartNum (cfg : BuildConfig) (evt : NetlinkEvent) : Int :=
  match evt.PARTN with
  | some n => if cfg.MOUNT_MULTI_PART && decide (n > 1) then 1 else n
  | none => 1

/-- The method `DirectVolume::handleDiskAdded`. -/
def handleDiskAdded (cfg : BuildConfig) (v : Volume) (evt : NetlinkEvent) : Volume :=
  let v1 := { v with mDiskMajor := evt.MAJOR
                     mDiskMinor := evt.MINOR
                     mDiskNumParts := readNumParts cfg evt
                     mPartMinors := clearPartMinors cfg }
  if v1.mDiskNumParts = 0 then v1.setState State.Idle
  else v1.setState State.Pending

/-- The condition guarding the mount retry in `handlePartitionAdded`:
`mRetryMount == true`, or under `PATCH_FOR_SLSIAP` also a label that starts
with "usbdisk". -/
def retryCondition (cfg : BuildConfig) (v : Volume) : Bool :=
  if cfg.PATCH_FOR_SLSIAP then
    v.mRetryMount || "usbdisk".data.isPrefixOf v.mLabel.data
  else
    v.mRetryMount

/-- The method `DirectVolume::handlePartitionAdded`; `none` when the store
`mPartMinors[part_num - 1] = minor` is out of bounds. -/
def handlePartitionAdded (cfg : BuildConfig) (env : Collaborators) (v : Volume)
    (evt : NetlinkEvent) : Option (Volume × List Effect) :=
  let part_num := readPartNum cfg evt
  if !cfg.MOUNT_MULTI_PART &&
      (decide (part_num > (cfg.MAX_PARTITIONS : Int)) || decide (part_num < 1)) then
    some (v, [])
  else
    let v1 :=
      if !cfg.MOUNT_MULTI_PART && decide (part_num > v.mDiskNumParts) then
        { v with mDiskNumParts := part_num }
      else v
    if evt.MAJOR ≠ v1.mDiskMajor then some (v1, [])
    else
      match storeSlot cfg.MAX_PARTITIONS v1.mPartMinors (part_num - 1) evt.MINOR with
      | none => none
      | some slots =>
        let v2 := { v1 with mPartMinors := slots }
        if v2.getState ≠ State.Formatting then
          let v3 := v2.setState State.Idle
          if retryCondition cfg v3 then
            let v4 := { v3 with mRetryMount := false }
            some (v4.afterCall (env.mountVol v4), [Effect.mountVol])
          else some (v3, [])
        else some (v2, [])

/-- The method `DirectVolume::handleDiskChanged`. -/
def handleDiskChanged (cfg : BuildConfig) (v : Volume) (evt : NetlinkEvent) : Volume :=
  if evt.MAJOR ≠ v.mDiskMajor ∨ evt.MINOR ≠ v.mDiskMinor then v
  else
    let v1 := { v with mDiskNumParts := readNumParts cfg evt
                       mPartMinors := clearPartMinors cfg }
    if v1.getState ≠ State.Formatting then
      if v1.mDiskNumParts = 0 then v1.setState State.Idle
      else v1.setState State.Pending
    else v1

/-- The method `DirectVolume::handlePartitionChanged`: it only logs. -/
def handlePartitionChanged (v : Volume) (_evt : NetlinkEvent) : Volume := v

/-- The method `DirectVolume::handleDiskRemoved`. -/
def handleDiskRemoved (env : Collaborators) (v : Volume) (evt : NetlinkEvent) :
    Volume × List Effect :=
  let share := env.shareEnabled v
  let r : Volume × List Effect :=
    if share.1 = 0 ∧ share.2 = true then
      (v.afterCall (env.unshareVolume v), [Effect.unshareVolume])
    else (v, [])
  (r.1.setState State.NoMedia,
    r.2 ++ [Effect.sendBroadcast ResponseCode.VolumeDiskRemoved evt.MAJOR evt.MINOR])

/-- The method `DirectVolume::handlePartitionRemoved`. -/
def handlePartitionRemoved (env : Collaborators) (v : Volume) (evt : NetlinkEvent) :
    Volume × List Effect :=
  let state := v.getState
  if state ≠ State.Mounted ∧ state ≠ State.Shared then (v, [])
  else if env.MKDEV evt.MAJOR evt.MINOR = v.mCurrentlyMountedKdev then
    let cleanup : List Effect :=
      if v.providesAsec then [Effect.cleanupAsec true] else []
    (v.afterCall (env.unmountVol v true false),
      cleanup ++
        [Effect.sendBroadcast ResponseCode.VolumeBadRemoval evt.MAJOR evt.MINOR,
          Effect.unmountVol true false])
  else if state = State.Shared then
    (v.afterCall (env.unshareVolume v),
      [Effect.sendBroadcast ResponseCode.VolumeBadRemoval evt.MAJOR evt.MINOR,
        Effect.unshareVolume])
  else (v, [])

/-! ## Event dispatch -/

/-- The iteration `for (it = mPaths->begin(); ...) if ((*it)->match(dp))` of
`handleBlockEvent`: whether some pattern matched, and the patterns afterwards
(a call to `match` may set `warned`).  The scan stops at the first match. -/
def scanPaths (fnmatch : String → String → Bool) :
    List PathInfo → String → Bool × List PathInfo
  | [], _ => (false, [])
  | p :: ps, dp =>
    let m := p.matches fnmatch dp
    if m.ret then (true, m.info :: ps)
    else
      let rest := scanPaths fnmatch ps dp
      (rest.1, m.info :: rest.2)

/-- The volume once the pattern scan of `handleBlockEvent` has run: only the
`warned` flags of the patterns can differ. -/
def afterScan (env : Collaborators) (v : Volume) (evt : NetlinkEvent) : Volume :=
  { v with mPaths := (scanPaths env.fnmatch v.mPaths evt.DEVPATH).2 }

/-- The two statements `free(mDevPath); mDevPath = NULL;`. -/
def Volume.clearDevPath (v : Volume) : Volume :=
  { v with mDevPath := none }

/-- What `handleBlockEvent` leaves behind: its return value, the value it
stored in `errno` if any, the volume, and the collaborator calls it made. -/
structure Outcome where
  ret : Int
  errno : Option Errno
  vol : Volume
  effects : List Effect
  deriving DecidableEq, Repr

/-- The two statements `errno = ENODEV; return -1;`. -/
def noSuchDevice (v : Volume) : Outcome :=
  { ret := -1, errno := some Errno.ENODEV, vol := v, effects := [] }

/-- The `NlActionAdd` branch of `handleBlockEvent`, entered once a pattern
has matched and the `mDevPath` comparison has passed. -/
def handleAdd (cfg : BuildConfig) (env : Collaborators) (v : Volume)
    (evt : NetlinkEvent) : Option Outcome :=
  let st := v.getState
  if ¬ (st = State.NoMedia ∨ st = State.Pending ∨ st = State.Idle) then
    some (noSuchDevice v)
  else
    let node := [Effect.createDeviceNode evt.MAJOR evt.MINOR]
    let isDisk := decide (evt.DEVTYPE = "disk")
    let v1 := if isDisk then handleDiskAdded cfg v evt else v
    if isDisk && cfg.MOUNT_MULTI_PART then
      some { ret := -1, errno := none, vol := v1, effects := node }
    else
      match handlePartitionAdded cfg env v1 evt with
      | none => none
      | some (v2, eff) =>
        let v3 := { v2 with mDevPath := some evt.DEVPATH }
        let inserted : List Effect :=
          if v3.getState = State.Idle then
            [Effect.sendBroadcast ResponseCode.VolumeDiskInserted
              v3.mDiskMajor v3.mDiskMinor]
          else []
        some { ret := 0, errno := none, vol := v3, effects := node ++ eff ++ inserted }

/-- The method `DirectVolume::handleBlockEvent`; `none` when a handler
performs an out-of-bounds array access. -/
def handleBlockEvent (cfg : BuildConfig) (env : Collaborators) (v : Volume)
    (evt : NetlinkEvent) : Option Outcome :=
  let dp := evt.DEVPATH
  let scan := scanPaths env.fnmatch v.mPaths dp
  let v0 := afterScan env v evt
  if scan.1 then
    if v0.mDevPath.isSome ∧ v0.mDevPath ≠ some dp then some (noSuchDevice v0)
    else
      match evt.action with
      | Action.NlActionAdd => handleAdd cfg env v0 evt
      | Action.NlActionRemove =>
        if v0.mDevPath = none then some (noSuchDevice v0)
        else
          let v1 := v0.clearDevPath
          let p := handlePartitionRemoved env v1 evt
          let d := handleDiskRemoved env p.1 evt
          some { ret := 0, errno := none, vol := d.1, effects := p.2 ++ d.2 }
      | Action.NlActionChange =>
        if v0.mDevPath = none then some (noSuchDevice v0)
        else if evt.DEVTYPE = "disk" then
          some { ret := 0, errno := none, vol := handleDiskChanged cfg v0 evt, effects := [] }
        else
          some { ret := 0, errno := none, vol := handlePartitionChanged v0 evt, effects := [] }
      | Action.NlActionUnknown =>
        if v0.mDevPath = none then some (noSuchDevice v0)
        else some { ret := 0, errno := none, vol := v0, effects := [] }
  else some (noSuchDevice v0)

/-! ## Device-node enumeration -/

/-- The method `DirectVolume::getDeviceNodes(devs, max)`: the returned count
and the entries `devs[0], devs[1], ...` it stored, in order; `none` when
`mPartMinors` is read out of bounds. -/
def getDeviceNodes (cfg : BuildConfig) (env : Collaborators) (v : Volume)
    (max : Int) : Option (Int × List Int) :=
  if v.mPartIdx = -1 then
    if v.mDiskNumParts = 0 then
      some (1, [env.MKDEV v.mDiskMajor v.mDiskMinor])
    else
      let count := (min v.mDiskNumParts max).toNat
      match (List.range count).mapM
          (fun i => loadSlot cfg.MAX_PARTITIONS v.mPartMinors (i : Int)) with
      | none => none
      | some minors => some (v.mDiskNumParts, minors.map (env.MKDEV v.mDiskMajor))
  else
    match loadSlot cfg.MAX_PARTITIONS v.mPartMinors (v.mPartIdx - 1) with
    | none => none
    | some minor => some (1, [env.MKDEV v.mDiskMajor minor])

/-! ## Crypto-substitution bookkeeping -/

/-- The method `DirectVolume::updateDeviceInfo(new_path, new_major, new_minor)`:
the returned value and the volume afterwards; `none` when the store
`mPartMinors[new_minor - 1] = new_minor` is out of bounds. -/
def updateDeviceInfo (cfg : BuildConfig) (v : Volume) (new_path : String)
    (new_major new_minor : Int) : Option (Int × Volume) :=
  if v.mPartIdx = -1 then some (-1, v)
  else if v.mPaths.length ≠ 1 then some (-1, v)
  else
    let v1 := addPath { v with mPaths := v.mPaths.tail } new_path
    let v2 := { v1 with mOrigDiskMajor := v1.mDiskMajor
                        mOrigDiskMinor := v1.mDiskMinor
                        mOrigPartIdx := v1.mPartIdx
                        mOrigPartMinors := v1.mPartMinors }
    let v3 := { v2 with mDiskMajor := new_major
                        mDiskMinor := new_minor
                        mPartIdx := new_minor }
    match storeSlot cfg.MAX_PARTITIONS v3.mPartMinors (new_minor - 1) new_minor with
    | none => none
    | some slots => some (0, { v3 with mPartMinors := slots, mIsDecrypted := 1 })

/-- The method `DirectVolume::revertDeviceInfo`. -/
def revertDeviceInfo (v : Volume) : Volume :=
  if v.mIsDecrypted ≠ 0 then
    { v with mDiskMajor := v.mOrigDiskMajor
             mDiskMinor := v.mOrigDiskMinor
             mPartIdx := v.mOrigPartIdx
             mPartMinors := v.mOrigPartMinors
             mIsDecrypted := 0 }
  else v

/-! ## Vocabulary of the claims -/

/-- Whether some configured pattern matches the event's device path. -/
def patternMatches (env : Collaborators) (v : Volume) (evt : NetlinkEvent) : Bool :=
  v.mPaths.any (fun p => (p.matches env.fnmatch evt.DEVPATH).ret)

/-- Dispatch accepts the event: a pattern matches, and `mDevPath` is equal to
the event's device path or, for an Add event only, unset. -/
def accepts (env : Collaborators) (v : Volume) (evt : NetlinkEvent) : Prop :=
  patternMatches env v evt = true ∧
    (v.mDevPath = some evt.DEVPATH ∨
      (evt.action = Action.NlActionAdd ∧ v.mDevPath = none))

instance (env : Collaborators) (v : Volume) (evt : NetlinkEvent) :
    Decidable (accepts env v evt) := by
  unfold accepts; infer_instance

/-- The volume after a sequence of `handleBlockEvent` calls, whatever each
call returns; `none` when one of them accesses an array out of bounds. -/
def runEvents (cfg : BuildConfig) (env : Collaborators) :
    Volume → List NetlinkEvent → Option Volume
  | v, [] => some v
  | v, e :: es =>
    match handleBlockEvent cfg env v e with
    | none => none
    | some r => runEvents cfg env r.vol es

/-- The event's partition count: `NPARTS`, 1 when the parameter is absent. -/
def partitionCount (evt : NetlinkEvent) : Int := evt.NPARTS.getD 1

/-- The event's partition number: `PARTN`, 1 when the parameter is absent. -/
def partitionNumber (evt : NetlinkEvent) : Int := evt.PARTN.getD 1

/-- The array has the declared size `MAX_PARTITIONS`. -/
def wellSized (cfg : BuildConfig) (v : Volume) : Prop :=
  v.mPartMinors.length = cfg.MAX_PARTITIONS

instance (cfg : BuildConfig) (v : Volume) : Decidable (wellSized cfg v) := by
  unfold wellSized; infer_instance

/-- The notifications among the recorded effects, in order. -/
def notifications : List Effect → List ResponseCode
  | [] => []
  | Effect.sendBroadcast code _ _ :: rest => code :: notifications rest
  | _ :: rest => notifications rest

/-- A sequence of `match` calls on one pattern object: the result of each
call, the object left by a call being the one the next call runs on. -/
def matchSequence (fnmatch : String → String → Bool) :
    PathInfo → List String → List MatchResult
  | _, [] => []
  | pi, path :: rest =>
    (pi.matches fnmatch path) :: matchSequence fnmatch (pi.matches fnmatch path).info rest

/-- Whether `path` starts with `pattern` and is longer than it. -/
def properExtension (pattern path : String) : Bool :=
  pattern.data.isPrefixOf path.data && decide (pattern.data.length < path.data.length)

/-- The list that is true at the first true entry of the given list and false
everywhere else. -/
def firstOnly : List Bool → List Bool
  | [] => []
  | true :: rest => true :: rest.map (fun _ => false)
  | false :: rest => false :: firstOnly rest

/-- The test `if (createDeviceNode(nodepath, major, minor))` in the Add branch
of `handleBlockEvent`: whether "Error making device node" is logged.  It is
the only use the source makes of the value `createDeviceNode` returns. -/
def nodeCreationErrorLogged (env : Collaborators) (evt : NetlinkEvent) : Bool :=
  decide (env.createDeviceNode evt.MAJOR evt.MINOR ≠ 0)

/-- The collaborators `env` with `createDeviceNode` replaced by `f`. -/
def withCreateDeviceNode (env : Collaborators) (f : Int → Int → Int) : Collaborators :=
  { env with createDeviceNode := f }

/-- The volumes reachable from a freshly constructed volume: the constructor
followed by any number of `addPath` calls, then any sequence of
`handleBlockEvent` calls, whatever each call returns and whatever the
collaborators answer at each call. -/
inductive Reachable (cfg : BuildConfig) : Volume → Prop where
  | fresh (b : BaseInit) (paths : List String) :
      Reachable cfg (paths.foldl addPath (construct cfg b))
  | step (env : Collaborators) (v : Volume) (evt : NetlinkEvent) (r : Outcome) :
      Reachable cfg v → handleBlockEvent cfg env v evt = some r → Reachable cfg r.vol

/-! ## Sample inputs -/

/-- A build with four partition slots and neither preprocessor symbol. -/
def plainBuild : BuildConfig :=
  { MAX_PARTITIONS := 4, MOUNT_MULTI_PART := false, PATCH_FOR_SLSIAP := false }

/-- A build with four partition slots and `MOUNT_MULTI_PART` defined. -/
def multiPartBuild : BuildConfig :=
  { MAX_PARTITIONS := 4, MOUNT_MULTI_PART := true, PATCH_FOR_SLSIAP := false }

/-- Collaborators that always succeed: unmount and unshare leave the volume
idle, mount leaves it mounted, no share is active. -/
def sampleEnv : Collaborators :=
  { fnmatch := fun _ _ => false
    MKDEV := fun ma mi => ma * 256 + mi
    createDeviceNode := fun _ _ => 0
    mountVol := fun v => ⟨0, State.Mounted, v.mCurrentlyMountedKdev, v.mRetryMount⟩
    unmountVol := fun v _ _ => ⟨0, State.Idle, -1, v.mRetryMount⟩
    shareEnabled := fun _ => (0, false)
    unshareVolume := fun v => ⟨0, State.Idle, v.mCurrentlyMountedKdev, v.mRetryMount⟩
    cleanupAsec := fun _ _ => 0 }

/-- Base-class values of a whole-set volume labelled "sdcard1". -/
def sampleBase : BaseInit :=
  { mLabel := "sdcard1"
    mPartIdx := -1
    providesAsec := false
    mRetryMount := false
    mCurrentlyMountedKdev := -1
    mOrigPartMinors := [0, 0, 0, 0]
    mOrigDiskMajor := 0
    mOrigDiskMinor := 0
    mOrigPartIdx := 0 }

/-- A freshly constructed whole-set volume with the single path pattern
"/block/sda". -/
def freshVolume (cfg : BuildConfig) : Volume :=
  addPath (construct cfg sampleBase) "/block/sda"

/-- The sample volume with partition (8,1) attached under the device path
"/block/sda/sda1" and the given lifecycle state and mounted device. -/
def attachedVolume (st : State) (kdev : Int) : Volume :=
  { mPaths := [{ pattern := "/block/sda", patternType := PatternType.prefixPattern,
                 warned := true }]
    mPartMinors := [1, -1, -1, -1]
    mOrigPartMinors := [0, 0, 0, 0]
    mDiskMajor := 8
    mDiskMinor := 0
    mDiskNumParts := 1
    mOrigDiskMajor := 0
    mOrigDiskMinor := 0
    mOrigPartIdx := 0
    mIsDecrypted := 0
    mDevPath := some "/block/sda/sda1"
    mPartIdx := -1
    mState := st
    mCurrentlyMountedKdev := kdev
    mRetryMount := false
    mLabel := "sdcard1"
    providesAsec := false }

/-- The event "disk (8,0) added" with the given `NPARTS`. -/
def diskAdd (nparts : Option Int) : NetlinkEvent :=
  { action := Action.NlActionAdd, DEVPATH := "/block/sda", DEVTYPE := "disk"
    MAJOR := 8, MINOR := 0, NPARTS := nparts, PARTN := none }

/-- The Add event of a partition numbered `n` with minor `minor` that reports
major 9 instead of the disk's major 8. -/
def wrongMajorAdd (path : String) (n minor : Int) : NetlinkEvent :=
  { action := Action.NlActionAdd, DEVPATH := path, DEVTYPE := "partition"
    MAJOR := 9, MINOR := minor, NPARTS := none, PARTN := some n }

/-- The sample volume as the build without MOUNT_MULTI_PART leaves it after
the Add events of disk (8,0) and of partition 1 (8,1), both under the device
path "/block/sda", with the given lifecycle state and mounted device. -/
def sharedPathVolume (st : State) (kdev : Int) : Volume :=
  { attachedVolume st kdev with
    mPaths := [PathInfo.new "/block/sda"]
    mDevPath := some "/block/sda" }

/-- The sample volume with disk (8,0) attached under "/block/sda/sda1", two
partitions expected and only partition 1 (minor 1) recorded, in the given
lifecycle state. -/
def twoPartVolume (st : State) : Volume :=
  { attachedVolume st (-1) with mDiskNumParts := 2 }

/-- The event "disk (8,0) changed" with the given `NPARTS`. -/
def diskChange (nparts : Option Int) : NetlinkEvent :=
  { action := Action.NlActionChange, DEVPATH := "/block/sda", DEVTYPE := "disk"
    MAJOR := 8, MINOR := 0, NPARTS := nparts, PARTN := none }

/-- The event "disk (8,0) removed". -/
def diskRemove : NetlinkEvent :=
  { action := Action.NlActionRemove, DEVPATH := "/block/sda", DEVTYPE := "disk"
    MAJOR := 8, MINOR := 0, NPARTS := none, PARTN := none }

/-- The event "partition `n` of disk 8, minor `minor`" with the given action
and device path. -/
def partitionEvent (action : Action) (path : String) (n minor : Int) : NetlinkEvent :=
  { action := action, DEVPATH := path, DEVTYPE := "partition"
    MAJOR := 8, MINOR := minor, NPARTS := none, PARTN := some n }

/-- The sample volume configured for the single partition 1 (part_idx = 1),
with partition (8,1) recorded, Idle. -/
def singlePartVolume : Volume :=
  { attachedVolume State.Idle (-1) with mPartIdx := 1 }

/-- The sample whole-set volume with three partitions expected and recorded
(minors 1, 2 and 3). -/
def threePartVolume : Volume :=
  { sharedPathVolume State.Idle (-1) with
    mDiskNumParts := 3
    mPartMinors := [1, 2, 3, -1] }

/-- The whole-set sample volume as the build without MOUNT_MULTI_PART leaves
it after the Add event of disk (8,0) with NPARTS = 7: seven partitions
expected, the disk's minor in slot 0. -/
def sevenPartVolume : Volume :=
  { sharedPathVolume State.Idle (-1) with
    mDiskNumParts := 7
    mPartMinors := [0, -1, -1, -1] }

/-- The whole-set sample volume as the build without MOUNT_MULTI_PART leaves
it after the Add and then the Remove event of disk (8,0): detached again. -/
def removedVolume : Volume :=
  { sharedPathVolume State.NoMedia (-1) with
    mDevPath := none
    mPartMinors := [0, -1, -1, -1] }

/-! ## Lemmas on the pattern scan and on dispatch -/

theorem scanPaths_fst (f : String → String → Bool) (ps : List PathInfo) (dp : String) :
    (scanPaths f ps dp).1 = ps.any (fun p => (p.matches f dp).ret) := by
  induction ps with
  | nil => rfl
  | cons p ps ih =>
    simp only [scanPaths, List.any_cons]
    by_cases h : (p.matches f dp).ret = true
    · simp [h]
    · simp [h, ih]

@[simp] theorem afterScan_mDevPath (env : Collaborators) (v : Volume) (evt : NetlinkEvent) :
    (afterScan env v evt).mDevPath = v.mDevPath := rfl

@[simp] theorem afterScan_mState (env : Collaborators) (v : Volume) (evt : NetlinkEvent) :
    (afterScan env v evt).mState = v.mState := rfl

@[simp] theorem afterScan_getState (env : Collaborators) (v : Volume) (evt : NetlinkEvent) :
    (afterScan env v evt).getState = v.mState := rfl

@[simp] theorem afterScan_mPartMinors (env : Collaborators) (v : Volume) (evt : NetlinkEvent) :
    (afterScan env v evt).mPartMinors = v.mPartMinors := rfl

@[simp] theorem afterScan_mDiskMajor (env : Collaborators) (v : Volume) (evt : NetlinkEvent) :
    (afterScan env v evt).mDiskMajor = v.mDiskMajor := rfl

@[simp] theorem afterScan_mDiskMinor (env : Collaborators) (v : Volume) (evt : NetlinkEvent) :
    (afterScan env v evt).mDiskMinor = v.mDiskMinor := rfl

@[simp] theorem afterScan_mDiskNumParts (env : Collaborators) (v : Volume) (evt : NetlinkEvent) :
    (afterScan env v evt).mDiskNumParts = v.mDiskNumParts := rfl

@[simp] theorem afterScan_mRetryMount (env : Collaborators) (v : Volume) (evt : NetlinkEvent) :
    (afterScan env v evt).mRetryMount = v.mRetryMount := rfl

@[simp] theorem afterScan_mLabel (env : Collaborators) (v : Volume) (evt : NetlinkEvent) :
    (afterScan env v evt).mLabel = v.mLabel := rfl

@[simp] theorem afterScan_mCurrentlyMountedKdev (env : Collaborators) (v : Volume)
    (evt : NetlinkEvent) :
    (afterScan env v evt).mCurrentlyMountedKdev = v.mCurrentlyMountedKdev := rfl

@[simp] theorem afterScan_providesAsec (env : Collaborators) (v : Volume) (evt : NetlinkEvent) :
    (afterScan env v evt).providesAsec = v.providesAsec := rfl

/-- Dispatch of an accepted Add event: the Add branch runs on the scanned
volume. -/
theorem handleBlockEvent_add (cfg : BuildConfig) (env : Collaborators) (v : Volume)
    (evt : NetlinkEvent) (hacc : accepts env v evt)
    (hadd : evt.action = Action.NlActionAdd) :
    handleBlockEvent cfg env v evt = handleAdd cfg env (afterScan env v evt) evt := by
  obtain ⟨hm, hp⟩ := hacc
  unfold patternMatches at hm
  unfold handleBlockEvent
  simp only [scanPaths_fst, hm, hadd, afterScan_mDevPath]
  rcases hp with hp | ⟨_, hp⟩ <;> simp [hp]

/-! ## C1: Add of a disk -/

theorem handleDiskAdded_state (cfg : BuildConfig) (v : Volume) (evt : NetlinkEvent) :
    (handleDiskAdded cfg v evt).mState =
      (if partitionCount evt = 0 then State.Idle else State.Pending) := by
  unfold handleDiskAdded partitionCount readNumParts Volume.setState
  cases hN : evt.NPARTS with
  | none => simp
  | some n =>
    by_cases h1 : n > 1
    · have h0 : n ≠ 0 := by omega
      by_cases hm : cfg.MOUNT_MULTI_PART = true <;> simp [h1, h0, hm]
    · by_cases h0 : n = 0 <;> simp [h1, h0]

theorem handleDiskAdded_fields (cfg : BuildConfig) (v : Volume) (evt : NetlinkEvent) :
    (handleDiskAdded cfg v evt).mPartMinors = List.replicate cfg.MAX_PARTITIONS (-1) ∧
    (handleDiskAdded cfg v evt).mDiskMajor = evt.MAJOR ∧
    (handleDiskAdded cfg v evt).mDiskMinor = evt.MINOR ∧
    (handleDiskAdded cfg v evt).mDiskNumParts = readNumParts cfg evt ∧
    (handleDiskAdded cfg v evt).mDevPath = v.mDevPath ∧
    (handleDiskAdded cfg v evt).mRetryMount = v.mRetryMount ∧
    (handleDiskAdded cfg v evt).mLabel = v.mLabel ∧
    (handleDiskAdded cfg v evt).mPaths = v.mPaths := by
  by_cases h : readNumParts cfg evt = 0 <;>
    simp [handleDiskAdded, Volume.setState, clearPartMinors, h]

/-- C1 (the code at the failing input): in the build without
MOUNT_MULTI_PART, a freshly constructed volume (state NoMedia) accepts the Add
event of disk (8,0) with NPARTS = 3, and afterwards the state is Idle, not
Pending, and slot 0 of part_minors holds the disk's minor 0 instead of being
unassigned: the disk handler has left Pending and all slots -1, and the
partition handler, run on the same event, has overwritten both. -/
theorem C1_disk_add_three_parts_not_pending :
    (freshVolume plainBuild).mState = State.NoMedia ∧
    accepts sampleEnv (freshVolume plainBuild) (diskAdd (some 3)) ∧
    (diskAdd (some 3)).action = Action.NlActionAdd ∧
    (diskAdd (some 3)).DEVTYPE = "disk" ∧
    partitionCount (diskAdd (some 3)) = 3 ∧
    (handleDiskAdded plainBuild (freshVolume plainBuild) (diskAdd (some 3))).mState
      = State.Pending ∧
    (handleDiskAdded plainBuild (freshVolume plainBuild) (diskAdd (some 3))).mPartMinors
      = [-1, -1, -1, -1] ∧
    (handleBlockEvent plainBuild sampleEnv (freshVolume plainBuild) (diskAdd (some 3))).map
        (fun r => (r.ret, r.vol.mState, r.vol.mPartMinors))
      = some (0, State.Idle, [0, -1, -1, -1]) := by
  decide

theorem retryCondition_congr (cfg : BuildConfig) (v w : Volume)
    (hr : w.mRetryMount = v.mRetryMount) (hl : w.mLabel = v.mLabel) :
    retryCondition cfg w = retryCondition cfg v := by
  unfold retryCondition
  rw [hr, hl]

/-- The partition handler on an event it records (partition number within
the array, major equal to the disk's), outside Formatting and with no mount
retry due: the slot is stored, the partition count raised if needed, and the
state becomes Idle. -/
theorem handlePartitionAdded_recorded (cfg : BuildConfig) (env : Collaborators)
    (v : Volume) (evt : NetlinkEvent)
    (hlo : 1 ≤ readPartNum cfg evt)
    (hhi : readPartNum cfg evt ≤ (cfg.MAX_PARTITIONS : Int))
    (hmaj : evt.MAJOR = v.mDiskMajor)
    (hfmt : v.mState ≠ State.Formatting)
    (hretry : retryCondition cfg v = false) :
    handlePartitionAdded cfg env v evt =
      some ({ v with
              mDiskNumParts :=
                if !cfg.MOUNT_MULTI_PART && decide (readPartNum cfg evt > v.mDiskNumParts)
                then readPartNum cfg evt else v.mDiskNumParts
              mPartMinors := v.mPartMinors.set (readPartNum cfg evt - 1).toNat evt.MINOR
              mState := State.Idle }, []) := by
  have h1 : ¬ (readPartNum cfg evt > (cfg.MAX_PARTITIONS : Int)) := by omega
  have h2 : ¬ (readPartNum cfg evt < 1) := by omega
  have hs : ∀ a : List Int, storeSlot cfg.MAX_PARTITIONS a (readPartNum cfg evt - 1) evt.MINOR
      = some (a.set (readPartNum cfg evt - 1).toNat evt.MINOR) := by
    intro a
    unfold storeSlot
    rw [if_pos]
    omega
  have hr : ∀ w : Volume, w.mRetryMount = v.mRetryMount → w.mLabel = v.mLabel →
      retryCondition cfg w = false := fun w h1 h2 =>
    (retryCondition_congr cfg v w h1 h2).trans hretry
  unfold handlePartitionAdded
  by_cases hraise : (!cfg.MOUNT_MULTI_PART && decide (readPartNum cfg evt > v.mDiskNumParts)) = true
  · simp [h1, h2, hraise, hmaj, hs, Volume.getState, hfmt, Volume.setState]
    exact hr _ rfl rfl
  · simp [h1, h2, hraise, hmaj, hs, Volume.getState, hfmt, Volume.setState]
    exact hr _ rfl rfl

theorem readPartNum_plain (cfg : BuildConfig) (evt : NetlinkEvent)
    (h : cfg.MOUNT_MULTI_PART = false) : readPartNum cfg evt = partitionNumber evt := by
  unfold readPartNum partitionNumber
  cases evt.PARTN <;> simp [h]

theorem readNumParts_plain (cfg : BuildConfig) (evt : NetlinkEvent)
    (h : cfg.MOUNT_MULTI_PART = false) : readNumParts cfg evt = partitionCount evt := by
  unfold readNumParts partitionCount
  cases evt.NPARTS <;> simp [h]

/-- The partition handler on an event whose partition number is outside
`1..MAX_PARTITIONS`, in the build without MOUNT_MULTI_PART: nothing happens. -/
theorem handlePartitionAdded_out_of_range (cfg : BuildConfig) (env : Collaborators)
    (v : Volume) (evt : NetlinkEvent) (hb : cfg.MOUNT_MULTI_PART = false)
    (hn : partitionNumber evt < 1 ∨ (cfg.MAX_PARTITIONS : Int) < partitionNumber evt) :
    handlePartitionAdded cfg env v evt = some (v, []) := by
  unfold handlePartitionAdded
  rw [readPartNum_plain cfg evt hb]
  rcases hn with hn | hn
  · simp [hb, hn]
  · simp [hb, hn]

/-- The Add branch on a disk event under MOUNT_MULTI_PART: the disk handler
runs and the call returns -1 without touching `errno` or `mDevPath`. -/
theorem handleAdd_disk_multi (cfg : BuildConfig) (env : Collaborators) (v : Volume)
    (evt : NetlinkEvent)
    (hstate : v.mState = State.NoMedia ∨ v.mState = State.Pending ∨ v.mState = State.Idle)
    (hdisk : evt.DEVTYPE = "disk") (hb : cfg.MOUNT_MULTI_PART = true) :
    handleAdd cfg env v evt =
      some { ret := -1, errno := none, vol := handleDiskAdded cfg v evt,
             effects := [Effect.createDeviceNode evt.MAJOR evt.MINOR] } := by
  unfold handleAdd
  simp [Volume.getState, hstate, hdisk, hb]

/-- The Add branch on a disk event without MOUNT_MULTI_PART: the disk handler
runs, then the partition handler, then `mDevPath` is set and the inserted
notification is sent if the state is Idle. -/
theorem handleAdd_disk_plain (cfg : BuildConfig) (env : Collaborators) (v : Volume)
    (evt : NetlinkEvent)
    (hstate : v.mState = State.NoMedia ∨ v.mState = State.Pending ∨ v.mState = State.Idle)
    (hdisk : evt.DEVTYPE = "disk") (hb : cfg.MOUNT_MULTI_PART = false)
    (w : Volume) (eff : List Effect)
    (hp : handlePartitionAdded cfg env (handleDiskAdded cfg v evt) evt = some (w, eff)) :
    handleAdd cfg env v evt =
      some { ret := 0, errno := none, vol := { w with mDevPath := some evt.DEVPATH },
             effects := [Effect.createDeviceNode evt.MAJOR evt.MINOR] ++ eff ++
               (if w.mState = State.Idle then
                 [Effect.sendBroadcast ResponseCode.VolumeDiskInserted w.mDiskMajor w.mDiskMinor]
               else []) } := by
  unfold handleAdd
  simp [Volume.getState, hstate, hdisk, hb, hp]

/-- The Add branch on a partition event (device type other than "disk"): only
the partition handler runs. -/
theorem handleAdd_partition (cfg : BuildConfig) (env : Collaborators) (v : Volume)
    (evt : NetlinkEvent)
    (hstate : v.mState = State.NoMedia ∨ v.mState = State.Pending ∨ v.mState = State.Idle)
    (hpart : evt.DEVTYPE ≠ "disk")
    (w : Volume) (eff : List Effect)
    (hp : handlePartitionAdded cfg env v evt = some (w, eff)) :
    handleAdd cfg env v evt =
      some { ret := 0, errno := none, vol := { w with mDevPath := some evt.DEVPATH },
             effects := [Effect.createDeviceNode evt.MAJOR evt.MINOR] ++ eff ++
               (if w.mState = State.Idle then
                 [Effect.sendBroadcast ResponseCode.VolumeDiskInserted w.mDiskMajor w.mDiskMinor]
               else []) } := by
  unfold handleAdd
  simp [Volume.getState, hstate, hpart, hp]

/-- What `handleBlockEvent` does with an accepted Add event of a disk received
in state NoMedia, Pending or Idle.  With MOUNT_MULTI_PART it stops after the
disk handler: it returns -1, the state is Idle for a partition count of 0 and
Pending otherwise, and every slot is -1.  Without MOUNT_MULTI_PART the same
event is also run through the partition handler with partition number PARTN
(1 when absent): when that number lies in 1..MAX_PARTITIONS and no mount
retry is due, the call returns 0, the state is Idle whatever the partition
count, the slot of that number holds the event's minor and every other slot
is -1; when the number lies outside 1..MAX_PARTITIONS the call returns 0 with
the state Idle for a count of 0 and Pending otherwise and every slot -1. -/
theorem handleBlockEvent_disk_add (cfg : BuildConfig) (env : Collaborators) (v : Volume)
    (evt : NetlinkEvent)
    (hstate : v.mState = State.NoMedia ∨ v.mState = State.Pending ∨ v.mState = State.Idle)
    (hadd : evt.action = Action.NlActionAdd)
    (hdisk : evt.DEVTYPE = "disk")
    (hacc : accepts env v evt) :
    (cfg.MOUNT_MULTI_PART = true →
      ∃ r, handleBlockEvent cfg env v evt = some r ∧ r.ret = -1 ∧
        r.vol.mState = (if partitionCount evt = 0 then State.Idle else State.Pending) ∧
        r.vol.mPartMinors = List.replicate cfg.MAX_PARTITIONS (-1)) ∧
    (cfg.MOUNT_MULTI_PART = false →
      1 ≤ partitionNumber evt → partitionNumber evt ≤ (cfg.MAX_PARTITIONS : Int) →
      retryCondition cfg v = false →
      ∃ r, handleBlockEvent cfg env v evt = some r ∧ r.ret = 0 ∧
        r.vol.mState = State.Idle ∧
        r.vol.mPartMinors =
          (List.replicate cfg.MAX_PARTITIONS (-1)).set (partitionNumber evt - 1).toNat
            evt.MINOR) ∧
    (cfg.MOUNT_MULTI_PART = false →
      (partitionNumber evt < 1 ∨ (cfg.MAX_PARTITIONS : Int) < partitionNumber evt) →
      ∃ r, handleBlockEvent cfg env v evt = some r ∧ r.ret = 0 ∧
        r.vol.mState = (if partitionCount evt = 0 then State.Idle else State.Pending) ∧
        r.vol.mPartMinors = List.replicate cfg.MAX_PARTITIONS (-1)) := by
  have hst : (afterScan env v evt).mState = State.NoMedia ∨
      (afterScan env v evt).mState = State.Pending ∨
      (afterScan env v evt).mState = State.Idle := hstate
  have hF := handleDiskAdded_fields cfg (afterScan env v evt) evt
  have hS := handleDiskAdded_state cfg (afterScan env v evt) evt
  rw [handleBlockEvent_add cfg env v evt hacc hadd]
  refine ⟨?_, ?_, ?_⟩
  · intro hb
    rw [handleAdd_disk_multi cfg env _ evt hst hdisk hb]
    exact ⟨_, rfl, rfl, hS, hF.1⟩
  · intro hb hlo hhi hretry
    have hrec := handlePartitionAdded_recorded cfg env
      (handleDiskAdded cfg (afterScan env v evt) evt) evt
      (by rw [readPartNum_plain cfg evt hb]; exact hlo)
      (by rw [readPartNum_plain cfg evt hb]; exact hhi)
      hF.2.1.symm
      (by rw [hS]; split <;> simp)
      ((retryCondition_congr cfg v _ hF.2.2.2.2.2.1 hF.2.2.2.2.2.2.1).trans hretry)
    rw [handleAdd_disk_plain cfg env _ evt hst hdisk hb _ _ hrec]
    refine ⟨_, rfl, rfl, rfl, ?_⟩
    simp only [hF.1, readPartNum_plain cfg evt hb]
  · intro hb hn
    have hrej := handlePartitionAdded_out_of_range cfg env
      (handleDiskAdded cfg (afterScan env v evt) evt) evt hb hn
    rw [handleAdd_disk_plain cfg env _ evt hst hdisk hb _ _ hrej]
    exact ⟨_, rfl, rfl, hS, hF.1⟩

/-- The Add event of disk (8,0) with NPARTS = 3 on the fresh volume, in both
builds. -/
theorem handleBlockEvent_disk_add_sample :
    ((freshVolume multiPartBuild).mState = State.NoMedia ∧
      accepts sampleEnv (freshVolume multiPartBuild) (diskAdd (some 3)) ∧
      ∃ r, handleBlockEvent multiPartBuild sampleEnv (freshVolume multiPartBuild)
          (diskAdd (some 3)) = some r ∧ r.ret = -1 ∧
        r.vol.mState = State.Pending ∧ r.vol.mPartMinors = [-1, -1, -1, -1]) ∧
    ((freshVolume plainBuild).mState = State.NoMedia ∧
      accepts sampleEnv (freshVolume plainBuild) (diskAdd (some 3)) ∧
      ∃ r, handleBlockEvent plainBuild sampleEnv (freshVolume plainBuild)
          (diskAdd (some 3)) = some r ∧ r.ret = 0 ∧
        r.vol.mState = State.Idle ∧ r.vol.mPartMinors = [0, -1, -1, -1]) :=
  ⟨⟨rfl, by decide,
      (handleBlockEvent_disk_add multiPartBuild sampleEnv (freshVolume multiPartBuild)
        (diskAdd (some 3)) (Or.inl rfl) rfl rfl (by decide)).1 rfl⟩,
    ⟨rfl, by decide,
      (handleBlockEvent_disk_add plainBuild sampleEnv (freshVolume plainBuild)
        (diskAdd (some 3)) (Or.inl rfl) rfl rfl (by decide)).2.1 rfl (by decide) (by decide)
        rfl⟩⟩

/-! ## C2 and C3: Remove events -/

/-- Dispatch of an accepted Remove event: `mDevPath` is cleared, then the
partition-removal handler runs, then the disk-removal handler, and the call
returns 0. -/
theorem handleBlockEvent_remove (cfg : BuildConfig) (env : Collaborators) (v : Volume)
    (evt : NetlinkEvent) (hacc : accepts env v evt)
    (hrem : evt.action = Action.NlActionRemove) :
    handleBlockEvent cfg env v evt =
      some { ret := 0, errno := none
             vol := (handleDiskRemoved env
               (handlePartitionRemoved env
                 (afterScan env v evt).clearDevPath evt).1 evt).1
             effects :=
               (handlePartitionRemoved env
                 (afterScan env v evt).clearDevPath evt).2 ++
               (handleDiskRemoved env
                 (handlePartitionRemoved env
                   (afterScan env v evt).clearDevPath evt).1 evt).2 } := by
  obtain ⟨hm, hp⟩ := hacc
  unfold patternMatches at hm
  have hp' : v.mDevPath = some evt.DEVPATH := by
    rcases hp with hp | ⟨ha, _⟩
    · exact hp
    · rw [hrem] at ha; cases ha
  unfold handleBlockEvent
  simp [scanPaths_fst, hm, hrem, hp']

/-- What the disk-removal handler leaves: state NoMedia, one VolumeDiskRemoved
notification, every field of the disk bookkeeping untouched. -/
theorem handleDiskRemoved_spec (env : Collaborators) (v : Volume) (evt : NetlinkEvent) :
    (handleDiskRemoved env v evt).1.mState = State.NoMedia ∧
    notifications (handleDiskRemoved env v evt).2 = [ResponseCode.VolumeDiskRemoved] ∧
    (∀ e ∈ (handleDiskRemoved env v evt).2, e = Effect.unshareVolume ∨
      e = Effect.sendBroadcast ResponseCode.VolumeDiskRemoved evt.MAJOR evt.MINOR) ∧
    (handleDiskRemoved env v evt).1.mDevPath = v.mDevPath ∧
    (handleDiskRemoved env v evt).1.mDiskMajor = v.mDiskMajor ∧
    (handleDiskRemoved env v evt).1.mDiskMinor = v.mDiskMinor ∧
    (handleDiskRemoved env v evt).1.mDiskNumParts = v.mDiskNumParts ∧
    (handleDiskRemoved env v evt).1.mPartMinors = v.mPartMinors := by
  unfold handleDiskRemoved
  by_cases h : (env.shareEnabled v).1 = 0 ∧ (env.shareEnabled v).2 = true
  · simp [h, Volume.setState, Volume.afterCall, notifications]
  · simp [h, Volume.setState, Volume.afterCall, notifications]

/-- The partition-removal handler outside Mounted and Shared: nothing. -/
theorem handlePartitionRemoved_idle (env : Collaborators) (v : Volume) (evt : NetlinkEvent)
    (hst : v.mState ≠ State.Mounted ∧ v.mState ≠ State.Shared) :
    handlePartitionRemoved env v evt = (v, []) := by
  unfold handlePartitionRemoved
  simp [Volume.getState, hst]

/-- C2 (counterexample): the sample volume is Idle with partition (8,1)
recorded and dev_path set, a state reached from the fresh volume by the Add
events of the disk and of the partition; dispatch accepts the Remove event of
that partition, and the call is not a no-op: the state becomes NoMedia,
dev_path is cleared and VolumeDiskRemoved is emitted, in the build with
MOUNT_MULTI_PART and in the build without it. -/
theorem C2_partition_remove_not_noop :
    (runEvents multiPartBuild sampleEnv (freshVolume multiPartBuild)
        [diskAdd (some 1), partitionEvent Action.NlActionAdd "/block/sda/sda1" 1 1]
      = some (attachedVolume State.Idle (-1)) ∧
      (partitionEvent Action.NlActionRemove "/block/sda/sda1" 1 1).DEVTYPE ≠ "disk" ∧
      accepts sampleEnv (attachedVolume State.Idle (-1))
        (partitionEvent Action.NlActionRemove "/block/sda/sda1" 1 1) ∧
      (handleBlockEvent multiPartBuild sampleEnv (attachedVolume State.Idle (-1))
          (partitionEvent Action.NlActionRemove "/block/sda/sda1" 1 1)).map
          (fun r => (r.ret, r.vol.mState, r.vol.mDevPath, notifications r.effects))
        = some (0, State.NoMedia, none, [ResponseCode.VolumeDiskRemoved])) ∧
    (runEvents plainBuild sampleEnv (freshVolume plainBuild)
        [diskAdd (some 1), partitionEvent Action.NlActionAdd "/block/sda" 1 1]
      = some (sharedPathVolume State.Idle (-1)) ∧
      (partitionEvent Action.NlActionRemove "/block/sda" 1 1).DEVTYPE ≠ "disk" ∧
      accepts sampleEnv (sharedPathVolume State.Idle (-1))
        (partitionEvent Action.NlActionRemove "/block/sda" 1 1) ∧
      (handleBlockEvent plainBuild sampleEnv (sharedPathVolume State.Idle (-1))
          (partitionEvent Action.NlActionRemove "/block/sda" 1 1)).map
          (fun r => (r.ret, r.vol.mState, r.vol.mDevPath, notifications r.effects))
        = some (0, State.NoMedia, none, [ResponseCode.VolumeDiskRemoved])) := by
  refine ⟨⟨by decide, by decide, by decide, by decide⟩,
    ⟨by decide, by decide, by decide, by decide⟩⟩

/-- C2 (amended): for every Remove event, of a partition or of a disk, that
dispatch accepts while the state is neither Mounted nor Shared, the
partition-removal handler does nothing (no VolumeBadRemoval, no unmount), but
the disk-removal handler runs in the same call: handle_block_event returns 0,
dev_path is cleared, the state becomes NoMedia and exactly one notification,
VolumeDiskRemoved, is emitted; the disk identifiers, disk_num_parts and
part_minors are unchanged. -/
theorem C2_remove_unmounted_amended (cfg : BuildConfig) (env : Collaborators) (v : Volume)
    (evt : NetlinkEvent)
    (hrem : evt.action = Action.NlActionRemove)
    (hacc : accepts env v evt)
    (hst : v.mState ≠ State.Mounted ∧ v.mState ≠ State.Shared) :
    ∃ r, handleBlockEvent cfg env v evt = some r ∧ r.ret = 0 ∧
      r.vol.mState = State.NoMedia ∧ r.vol.mDevPath = none ∧
      notifications r.effects = [ResponseCode.VolumeDiskRemoved] ∧
      (∀ e ∈ r.effects, e = Effect.unshareVolume ∨
        e = Effect.sendBroadcast ResponseCode.VolumeDiskRemoved evt.MAJOR evt.MINOR) ∧
      r.vol.mDiskMajor = v.mDiskMajor ∧ r.vol.mDiskMinor = v.mDiskMinor ∧
      r.vol.mDiskNumParts = v.mDiskNumParts ∧ r.vol.mPartMinors = v.mPartMinors := by
  rw [handleBlockEvent_remove cfg env v evt hacc hrem,
    handlePartitionRemoved_idle env (afterScan env v evt).clearDevPath evt hst]
  have h := handleDiskRemoved_spec env (afterScan env v evt).clearDevPath evt
  exact ⟨_, rfl, rfl, h.1, h.2.2.2.1, by simpa using h.2.1, by simpa using h.2.2.1,
    h.2.2.2.2.1, h.2.2.2.2.2.1, h.2.2.2.2.2.2.1, h.2.2.2.2.2.2.2⟩

/-- C2 (witness): the amended statement at the Idle sample volume and the
Remove event of partition (8,1). -/
theorem C2_remove_unmounted_amended_witness :
    accepts sampleEnv (attachedVolume State.Idle (-1))
      (partitionEvent Action.NlActionRemove "/block/sda/sda1" 1 1) ∧
    ∃ r, handleBlockEvent plainBuild sampleEnv (attachedVolume State.Idle (-1))
        (partitionEvent Action.NlActionRemove "/block/sda/sda1" 1 1) = some r ∧ r.ret = 0 ∧
      r.vol.mState = State.NoMedia ∧ r.vol.mDevPath = none ∧
      notifications r.effects = [ResponseCode.VolumeDiskRemoved] ∧
      (∀ e ∈ r.effects, e = Effect.unshareVolume ∨
        e = Effect.sendBroadcast ResponseCode.VolumeDiskRemoved 8 1) ∧
      r.vol.mDiskMajor = 8 ∧ r.vol.mDiskMinor = 0 ∧
      r.vol.mDiskNumParts = 1 ∧ r.vol.mPartMinors = [1, -1, -1, -1] :=
  ⟨by decide,
    C2_remove_unmounted_amended plainBuild sampleEnv (attachedVolume State.Idle (-1))
      (partitionEvent Action.NlActionRemove "/block/sda/sda1" 1 1) rfl (by decide)
      (by decide)⟩

theorem notifications_append (xs ys : List Effect) :
    notifications (xs ++ ys) = notifications xs ++ notifications ys := by
  induction xs with
  | nil => rfl
  | cons x xs ih => cases x <;> simp [notifications, ih]

/-- The partition-removal handler when the removed device is the mounted one
(state Mounted or Shared): optional secondary-asset cleanup, then the
VolumeBadRemoval notification, then the forced unmount. -/
theorem handlePartitionRemoved_mounted (env : Collaborators) (v : Volume)
    (evt : NetlinkEvent)
    (hst : v.mState = State.Mounted ∨ v.mState = State.Shared)
    (hdev : env.MKDEV evt.MAJOR evt.MINOR = v.mCurrentlyMountedKdev) :
    handlePartitionRemoved env v evt =
      (v.afterCall (env.unmountVol v true false),
        (if v.providesAsec then [Effect.cleanupAsec true] else []) ++
          [Effect.sendBroadcast ResponseCode.VolumeBadRemoval evt.MAJOR evt.MINOR,
            Effect.unmountVol true false]) := by
  unfold handlePartitionRemoved
  rcases hst with hst | hst <;> simp [Volume.getState, hst, hdev]

/-- C3: for every Remove event that dispatch accepts while the state is
Mounted and whose device MKDEV(major, minor) is the currently mounted one,
handle_block_event emits exactly one VolumeBadRemoval notification, directly
followed by the forced unmount; before it there is at most the
secondary-asset cleanup, after it only the disk-removal effects. -/
theorem C3_bad_removal_once_before_unmount (cfg : BuildConfig) (env : Collaborators)
    (v : Volume) (evt : NetlinkEvent)
    (hrem : evt.action = Action.NlActionRemove)
    (hacc : accepts env v evt)
    (hst : v.mState = State.Mounted)
    (hdev : env.MKDEV evt.MAJOR evt.MINOR = v.mCurrentlyMountedKdev) :
    ∃ r pre post, handleBlockEvent cfg env v evt = some r ∧ r.ret = 0 ∧
      r.effects = pre ++
        Effect.sendBroadcast ResponseCode.VolumeBadRemoval evt.MAJOR evt.MINOR ::
        Effect.unmountVol true false :: post ∧
      (∀ e ∈ pre, e = Effect.cleanupAsec true) ∧
      (∀ e ∈ post, e = Effect.unshareVolume ∨
        e = Effect.sendBroadcast ResponseCode.VolumeDiskRemoved evt.MAJOR evt.MINOR) ∧
      (notifications r.effects).count ResponseCode.VolumeBadRemoval = 1 := by
  have hp := handlePartitionRemoved_mounted env (afterScan env v evt).clearDevPath evt
    (Or.inl hst) hdev
  have hd := handleDiskRemoved_spec env
    ((afterScan env v evt).clearDevPath.afterCall
      (env.unmountVol (afterScan env v evt).clearDevPath true false)) evt
  rw [handleBlockEvent_remove cfg env v evt hacc hrem, hp]
  refine ⟨_, if v.providesAsec then [Effect.cleanupAsec true] else [], _, rfl, rfl, ?_, ?_,
    hd.2.2.1, ?_⟩
  · simp [Volume.clearDevPath]
  · intro e he
    split at he <;> simp_all
  · simp only [notifications_append, hd.2.1]
    by_cases ha : (afterScan env v evt).clearDevPath.providesAsec = true <;>
      simp [ha, notifications]

/-- C3 (witness): the sample volume mounted on (8,1) and the Remove event of
partition (8,1). -/
theorem C3_bad_removal_once_before_unmount_witness :
    accepts sampleEnv (attachedVolume State.Mounted (8 * 256 + 1))
      (partitionEvent Action.NlActionRemove "/block/sda/sda1" 1 1) ∧
    ∃ r pre post, handleBlockEvent plainBuild sampleEnv
        (attachedVolume State.Mounted (8 * 256 + 1))
        (partitionEvent Action.NlActionRemove "/block/sda/sda1" 1 1) = some r ∧ r.ret = 0 ∧
      r.effects = pre ++
        Effect.sendBroadcast ResponseCode.VolumeBadRemoval 8 1 ::
        Effect.unmountVol true false :: post ∧
      (∀ e ∈ pre, e = Effect.cleanupAsec true) ∧
      (∀ e ∈ post, e = Effect.unshareVolume ∨
        e = Effect.sendBroadcast ResponseCode.VolumeDiskRemoved 8 1) ∧
      (notifications r.effects).count ResponseCode.VolumeBadRemoval = 1 :=
  ⟨by decide,
    C3_bad_removal_once_before_unmount plainBuild sampleEnv
      (attachedVolume State.Mounted (8 * 256 + 1))
      (partitionEvent Action.NlActionRemove "/block/sda/sda1" 1 1) rfl (by decide) rfl rfl⟩

/-! ## C4: the end-to-end scenario -/

/-- A non-Add event on a volume whose `mDevPath` is unset fails with ENODEV,
whether or not a pattern matches. -/
theorem handleBlockEvent_detached (cfg : BuildConfig) (env : Collaborators) (v : Volume)
    (evt : NetlinkEvent) (hnone : v.mDevPath = none)
    (hact : evt.action ≠ Action.NlActionAdd) :
    handleBlockEvent cfg env v evt = some (noSuchDevice (afterScan env v evt)) := by
  unfold handleBlockEvent
  cases ha : evt.action with
  | NlActionAdd => exact absurd ha hact
  | NlActionRemove => simp [hnone]
  | NlActionChange => simp [hnone]
  | NlActionUnknown => simp [hnone]

theorem afterScan_eq_self (env : Collaborators) (v : Volume) (evt : NetlinkEvent)
    (h : (scanPaths env.fnmatch v.mPaths evt.DEVPATH).2 = v.mPaths) :
    afterScan env v evt = v := by
  unfold afterScan
  rw [h]

theorem handleDiskRemoved_mPaths (env : Collaborators) (v : Volume) (evt : NetlinkEvent) :
    (handleDiskRemoved env v evt).1.mPaths = v.mPaths := by
  unfold handleDiskRemoved
  by_cases h : (env.shareEnabled v).1 = 0 ∧ (env.shareEnabled v).2 = true
  · simp [h, Volume.setState, Volume.afterCall]
  · simp [h, Volume.setState, Volume.afterCall]

/-- C4 (counterexample): the scenario run on the sample volume.  With
MOUNT_MULTI_PART the first two steps go as claimed (Pending, then Idle with
device nodes [(8,1)]), but the Remove of partition (8,1) while mounted on
(8,1) already clears dev_path and leaves the state NoMedia, after emitting
VolumeBadRemoval, the forced unmount and VolumeDiskRemoved; the subsequent
Disk Remove event fails with ENODEV.  Without MOUNT_MULTI_PART the first step
leaves the state Idle instead of Pending, and the Remove of the mounted
partition clears dev_path all the same. -/
theorem C4_scenario_partition_remove_clears_dev_path :
    ((handleBlockEvent multiPartBuild sampleEnv (freshVolume multiPartBuild)
        (diskAdd (some 1))).map (fun r => (r.ret, r.vol.mState, r.vol.mDevPath))
      = some (-1, State.Pending, none)) ∧
    (runEvents multiPartBuild sampleEnv (freshVolume multiPartBuild)
        [diskAdd (some 1), partitionEvent Action.NlActionAdd "/block/sda/sda1" 1 1]
      = some (attachedVolume State.Idle (-1))) ∧
    (getDeviceNodes multiPartBuild sampleEnv (attachedVolume State.Idle (-1)) 4
      = some (1, [8 * 256 + 1])) ∧
    ((handleBlockEvent multiPartBuild sampleEnv (attachedVolume State.Mounted (8 * 256 + 1))
        (partitionEvent Action.NlActionRemove "/block/sda/sda1" 1 1)).map
        (fun r => (r.ret, r.vol.mDevPath, r.vol.mState, r.effects))
      = some (0, none, State.NoMedia,
          [Effect.sendBroadcast ResponseCode.VolumeBadRemoval 8 1,
            Effect.unmountVol true false,
            Effect.sendBroadcast ResponseCode.VolumeDiskRemoved 8 1])) ∧
    ((runEvents multiPartBuild sampleEnv (attachedVolume State.Mounted (8 * 256 + 1))
        [partitionEvent Action.NlActionRemove "/block/sda/sda1" 1 1]).bind
        (fun w => (handleBlockEvent multiPartBuild sampleEnv w diskRemove).map
          (fun r => (r.ret, r.errno, r.effects, decide (r.vol = w))))
      = some (-1, some Errno.ENODEV, [], true)) ∧
    ((handleBlockEvent plainBuild sampleEnv (freshVolume plainBuild)
        (diskAdd (some 1))).map (fun r => (r.ret, r.vol.mState, r.vol.mDevPath))
      = some (0, State.Idle, some "/block/sda")) ∧
    ((handleBlockEvent plainBuild sampleEnv (sharedPathVolume State.Mounted (8 * 256 + 1))
        (partitionEvent Action.NlActionRemove "/block/sda" 1 1)).map
        (fun r => (r.ret, r.vol.mDevPath, r.vol.mState, r.effects))
      = some (0, none, State.NoMedia,
          [Effect.sendBroadcast ResponseCode.VolumeBadRemoval 8 1,
            Effect.unmountVol true false,
            Effect.sendBroadcast ResponseCode.VolumeDiskRemoved 8 1])) := by
  refine ⟨by decide, by decide, by decide, by decide, by decide, by decide, by decide⟩

/-- Removal of the mounted device, then any further non-Add event: the first
call emits VolumeBadRemoval, the forced unmount and VolumeDiskRemoved, clears
`mDevPath` and ends in NoMedia; the second call fails with ENODEV. -/
theorem remove_mounted_then_detached (cfg : BuildConfig) (env : Collaborators)
    (v : Volume) (evt evt2 : NetlinkEvent)
    (hrem : evt.action = Action.NlActionRemove)
    (hacc : accepts env v evt)
    (hst : v.mState = State.Mounted)
    (hdev : env.MKDEV evt.MAJOR evt.MINOR = v.mCurrentlyMountedKdev)
    (h2 : evt2.action ≠ Action.NlActionAdd) :
    ∃ r3, handleBlockEvent cfg env v evt = some r3 ∧ r3.ret = 0 ∧
      notifications r3.effects
        = [ResponseCode.VolumeBadRemoval, ResponseCode.VolumeDiskRemoved] ∧
      Effect.unmountVol true false ∈ r3.effects ∧
      r3.vol.mDevPath = none ∧ r3.vol.mState = State.NoMedia ∧
      ∃ r4, handleBlockEvent cfg env r3.vol evt2 = some r4 ∧
        r4.ret = -1 ∧ r4.errno = some Errno.ENODEV ∧ r4.effects = [] ∧
        r4.vol.mState = State.NoMedia ∧ r4.vol.mDevPath = none := by
  have hp := handlePartitionRemoved_mounted env (afterScan env v evt).clearDevPath evt
    (Or.inl hst) hdev
  have hd := handleDiskRemoved_spec env
    ((afterScan env v evt).clearDevPath.afterCall
      (env.unmountVol (afterScan env v evt).clearDevPath true false)) evt
  rw [handleBlockEvent_remove cfg env v evt hacc hrem, hp]
  refine ⟨_, rfl, rfl, ?_, ?_, hd.2.2.2.1, hd.1, ?_⟩
  · simp only [notifications_append, hd.2.1]
    by_cases ha : (afterScan env v evt).clearDevPath.providesAsec = true <;>
      simp [ha, notifications]
  · simp
  · rw [handleBlockEvent_detached cfg env _ evt2 hd.2.2.2.1 h2]
    exact ⟨_, rfl, rfl, rfl, rfl, hd.1, hd.2.2.2.1⟩

/-- C4 (amended): the scenario on the freshly constructed whole-set sample
volume, for any collaborators, in the build with MOUNT_MULTI_PART.  Add of
disk (8,0) with partition count 1 returns -1 and leaves the state Pending with
dev_path unset; Add of partition 1 (8,1) then leaves the state Idle with
dev_path set to the partition's path, and get_device_nodes yields exactly
[(8,1)].  With the volume mounted on (8,1), Remove of partition (8,1) emits
VolumeBadRemoval, the forced unmount and VolumeDiskRemoved, and that same call
clears dev_path and leaves the state NoMedia (this step in either build); the
subsequent Disk Remove event fails with ENODEV and leaves dev_path unset and
the state NoMedia. -/
theorem C4_scenario_amended (env : Collaborators) (max : Int) (hmax : 1 ≤ max) :
    (∃ r, handleBlockEvent multiPartBuild env (freshVolume multiPartBuild)
        (diskAdd (some 1)) = some r ∧
      r.ret = -1 ∧ r.vol.mState = State.Pending ∧ r.vol.mDevPath = none ∧
      ∃ r2, handleBlockEvent multiPartBuild env r.vol
          (partitionEvent Action.NlActionAdd "/block/sda/sda1" 1 1) = some r2 ∧
        r2.ret = 0 ∧ r2.vol = attachedVolume State.Idle (-1)) ∧
    getDeviceNodes multiPartBuild env (attachedVolume State.Idle (-1)) max
      = some (1, [env.MKDEV 8 1]) ∧
    ∀ cfg : BuildConfig,
      ∃ r3, handleBlockEvent cfg env (attachedVolume State.Mounted (env.MKDEV 8 1))
          (partitionEvent Action.NlActionRemove "/block/sda/sda1" 1 1) = some r3 ∧
        r3.ret = 0 ∧
        notifications r3.effects
          = [ResponseCode.VolumeBadRemoval, ResponseCode.VolumeDiskRemoved] ∧
        Effect.unmountVol true false ∈ r3.effects ∧
        r3.vol.mDevPath = none ∧ r3.vol.mState = State.NoMedia ∧
        ∃ r4, handleBlockEvent cfg env r3.vol diskRemove = some r4 ∧
          r4.ret = -1 ∧ r4.errno = some Errno.ENODEV ∧ r4.effects = [] ∧
          r4.vol.mState = State.NoMedia ∧ r4.vol.mDevPath = none := by
  have hc : (min (1 : Int) max).toNat = 1 := by
    rw [min_eq_left hmax]; rfl
  refine ⟨⟨_, rfl, rfl, rfl, rfl, _, rfl, rfl, rfl⟩, ?_, ?_⟩
  · unfold getDeviceNodes
    simp only [attachedVolume, hc]
    rfl
  · intro cfg
    exact remove_mounted_then_detached cfg env
      (attachedVolume State.Mounted (env.MKDEV 8 1))
      (partitionEvent Action.NlActionRemove "/block/sda/sda1" 1 1) diskRemove rfl
      ⟨rfl, Or.inl rfl⟩ rfl rfl (by decide)

/-- C4 (witness): the amended scenario with the sample collaborators and room
for four device nodes; shown are the device nodes and the removal of the
mounted partition in the build with MOUNT_MULTI_PART. -/
theorem C4_scenario_amended_witness :
    (1 : Int) ≤ 4 ∧
    getDeviceNodes multiPartBuild sampleEnv (attachedVolume State.Idle (-1)) 4
      = some (1, [sampleEnv.MKDEV 8 1]) ∧
    ∃ r3, handleBlockEvent multiPartBuild sampleEnv
        (attachedVolume State.Mounted (sampleEnv.MKDEV 8 1))
        (partitionEvent Action.NlActionRemove "/block/sda/sda1" 1 1) = some r3 ∧
      r3.ret = 0 ∧
      notifications r3.effects
        = [ResponseCode.VolumeBadRemoval, ResponseCode.VolumeDiskRemoved] ∧
      Effect.unmountVol true false ∈ r3.effects ∧
      r3.vol.mDevPath = none ∧ r3.vol.mState = State.NoMedia ∧
      ∃ r4, handleBlockEvent multiPartBuild sampleEnv r3.vol diskRemove = some r4 ∧
        r4.ret = -1 ∧ r4.errno = some Errno.ENODEV ∧ r4.effects = [] ∧
        r4.vol.mState = State.NoMedia ∧ r4.vol.mDevPath = none :=
  ⟨by decide, (C4_scenario_amended sampleEnv 4 (by decide)).2.1,
    (C4_scenario_amended sampleEnv 4 (by decide)).2.2 multiPartBuild⟩

/-! ## C5: rejected events -/

/-- C5: when no pattern matches the event's device path, or a pattern matches
but dev_path is set and differs from the event's path, or a pattern matches,
the action is Add and the state is none of NoMedia, Pending, Idle, then
handle_block_event returns -1 with errno ENODEV, makes no collaborator call,
and leaves the lifecycle state, dev_path, disk_major, disk_minor,
disk_num_parts, part_minors, part_idx and the crypto shadow fields unchanged
(the volume afterwards is the volume after the pattern scan). -/
theorem C5_rejected_event_no_change (cfg : BuildConfig) (env : Collaborators) (v : Volume)
    (evt : NetlinkEvent)
    (h : patternMatches env v evt = false ∨
      (patternMatches env v evt = true ∧
        ∃ d, v.mDevPath = some d ∧ d ≠ evt.DEVPATH) ∨
      (patternMatches env v evt = true ∧ evt.action = Action.NlActionAdd ∧
        ¬ (v.mState = State.NoMedia ∨ v.mState = State.Pending ∨
          v.mState = State.Idle))) :
    ∃ r, handleBlockEvent cfg env v evt = some r ∧
      r.ret = -1 ∧ r.errno = some Errno.ENODEV ∧ r.effects = [] ∧
      r.vol = afterScan env v evt ∧
      r.vol.mState = v.mState ∧ r.vol.mDevPath = v.mDevPath ∧
      r.vol.mDiskMajor = v.mDiskMajor ∧ r.vol.mDiskMinor = v.mDiskMinor ∧
      r.vol.mDiskNumParts = v.mDiskNumParts ∧ r.vol.mPartMinors = v.mPartMinors ∧
      r.vol.mPartIdx = v.mPartIdx ∧
      r.vol.mOrigDiskMajor = v.mOrigDiskMajor ∧ r.vol.mOrigDiskMinor = v.mOrigDiskMinor ∧
      r.vol.mOrigPartIdx = v.mOrigPartIdx ∧ r.vol.mOrigPartMinors = v.mOrigPartMinors ∧
      r.vol.mIsDecrypted = v.mIsDecrypted := by
  have key : handleBlockEvent cfg env v evt = some (noSuchDevice (afterScan env v evt)) := by
    unfold patternMatches at h
    unfold handleBlockEvent
    rcases h with h | ⟨hm, d, hd, hne⟩ | ⟨hm, hadd, hst⟩
    · simp [scanPaths_fst, h]
    · have hne' : ¬ (d = evt.DEVPATH) := hne
      simp [scanPaths_fst, hm, hd, hne']
    · simp only [scanPaths_fst, hm, hadd, if_true]
      split
      · rfl
      · unfold handleAdd
        simp [Volume.getState, hst]
  exact ⟨_, key, rfl, rfl, rfl, rfl, rfl, rfl, rfl, rfl, rfl, rfl, rfl, rfl, rfl, rfl, rfl,
    rfl⟩

/-- C5 (witness): the sample volume owns "/block/sda/sda1" and receives the
Add event of a partition under "/block/sda/sda2". -/
theorem C5_rejected_event_no_change_witness :
    (patternMatches sampleEnv (attachedVolume State.Idle (-1))
        (partitionEvent Action.NlActionAdd "/block/sda/sda2" 2 2) = true ∧
      ∃ d, (attachedVolume State.Idle (-1)).mDevPath = some d ∧
        d ≠ (partitionEvent Action.NlActionAdd "/block/sda/sda2" 2 2).DEVPATH) ∧
    ∃ r, handleBlockEvent plainBuild sampleEnv (attachedVolume State.Idle (-1))
        (partitionEvent Action.NlActionAdd "/block/sda/sda2" 2 2) = some r ∧
      r.ret = -1 ∧ r.errno = some Errno.ENODEV ∧ r.effects = [] ∧
      r.vol = afterScan sampleEnv (attachedVolume State.Idle (-1))
        (partitionEvent Action.NlActionAdd "/block/sda/sda2" 2 2) ∧
      r.vol.mState = State.Idle ∧ r.vol.mDevPath = some "/block/sda/sda1" ∧
      r.vol.mDiskMajor = 8 ∧ r.vol.mDiskMinor = 0 ∧
      r.vol.mDiskNumParts = 1 ∧ r.vol.mPartMinors = [1, -1, -1, -1] ∧
      r.vol.mPartIdx = -1 ∧
      r.vol.mOrigDiskMajor = 0 ∧ r.vol.mOrigDiskMinor = 0 ∧
      r.vol.mOrigPartIdx = 0 ∧ r.vol.mOrigPartMinors = [0, 0, 0, 0] ∧
      r.vol.mIsDecrypted = 0 :=
  ⟨⟨by decide, "/block/sda/sda1", rfl, by decide⟩,
    C5_rejected_event_no_change plainBuild sampleEnv (attachedVolume State.Idle (-1))
      (partitionEvent Action.NlActionAdd "/block/sda/sda2" 2 2)
      (Or.inr (Or.inl ⟨by decide, "/block/sda/sda1", rfl, by decide⟩))⟩

/-! ## C6, C7 and C8: Add of a partition -/

/-- The partition handler on an event it rejects (major different from the
disk's, or, without MOUNT_MULTI_PART, partition number outside
`1..MAX_PARTITIONS`): no effect and no change, except that without
MOUNT_MULTI_PART a partition number within range that exceeds the partition
count has already replaced it when the major is compared. -/
theorem handlePartitionAdded_rejected (cfg : BuildConfig) (env : Collaborators)
    (v : Volume) (evt : NetlinkEvent)
    (h : evt.MAJOR ≠ v.mDiskMajor ∨
      (cfg.MOUNT_MULTI_PART = false ∧
        (partitionNumber evt < 1 ∨ (cfg.MAX_PARTITIONS : Int) < partitionNumber evt))) :
    handlePartitionAdded cfg env v evt =
      some ({ v with
              mDiskNumParts :=
                if cfg.MOUNT_MULTI_PART = false ∧ 1 ≤ partitionNumber evt ∧
                    partitionNumber evt ≤ (cfg.MAX_PARTITIONS : Int) ∧
                    v.mDiskNumParts < partitionNumber evt
                then partitionNumber evt else v.mDiskNumParts }, []) := by
  by_cases hb : cfg.MOUNT_MULTI_PART = false
  · by_cases hr : partitionNumber evt < 1 ∨ (cfg.MAX_PARTITIONS : Int) < partitionNumber evt
    · rw [handlePartitionAdded_out_of_range cfg env v evt hb hr]
      have : ¬ (1 ≤ partitionNumber evt ∧ partitionNumber evt ≤ (cfg.MAX_PARTITIONS : Int) ∧
          v.mDiskNumParts < partitionNumber evt) := by omega
      simp [this]
    · have hmaj : evt.MAJOR ≠ v.mDiskMajor := by
        rcases h with h | ⟨_, h⟩
        · exact h
        · exact absurd h hr
      have h1 : ¬ (partitionNumber evt > (cfg.MAX_PARTITIONS : Int)) := by omega
      have h2 : ¬ (partitionNumber evt < 1) := by omega
      have h3 : 1 ≤ partitionNumber evt := by omega
      have h4 : partitionNumber evt ≤ (cfg.MAX_PARTITIONS : Int) := by omega
      unfold handlePartitionAdded
      rw [readPartNum_plain cfg evt hb]
      by_cases hgt : v.mDiskNumParts < partitionNumber evt
      · simp [hb, h1, h2, h3, h4, hgt, hmaj]
      · simp [hb, h1, h2, h3, h4, hgt, hmaj]
  · have hb' : cfg.MOUNT_MULTI_PART = true := by simpa using hb
    have hmaj : evt.MAJOR ≠ v.mDiskMajor := by
      rcases h with h | ⟨h, _⟩
      · exact h
      · exact absurd h hb
    unfold handlePartitionAdded
    simp [hb', hmaj]

/-- C6 (counterexample): in the build without MOUNT_MULTI_PART, dispatch
accepts (a) on the Idle sample volume (disk major 8) the Add event of
partition 3 that reports major 9, and (b) on the fresh volume the Add event of
partition 9, beyond MAX_PARTITIONS = 4.  Both calls return 0, not a failure;
(a) raises disk_num_parts from 1 to 3 and emits VolumeDiskInserted, (b) sets
dev_path.  In the build with MOUNT_MULTI_PART, (c) the Add event of a
partition reporting major 9 on the volume left Pending by the Add of disk
(8,0) returns 0 as well and sets dev_path. -/
theorem C6_rejected_partition_add_returns_success :
    (accepts sampleEnv (sharedPathVolume State.Idle (-1)) (wrongMajorAdd "/block/sda" 3 3) ∧
      (wrongMajorAdd "/block/sda" 3 3).MAJOR ≠ (sharedPathVolume State.Idle (-1)).mDiskMajor ∧
      (sharedPathVolume State.Idle (-1)).mDiskNumParts = 1 ∧
      (handleBlockEvent plainBuild sampleEnv (sharedPathVolume State.Idle (-1))
          (wrongMajorAdd "/block/sda" 3 3)).map
          (fun r => (r.ret, r.vol.mDiskNumParts, notifications r.effects))
        = some (0, 3, [ResponseCode.VolumeDiskInserted])) ∧
    (accepts sampleEnv (freshVolume plainBuild)
        (partitionEvent Action.NlActionAdd "/block/sda/sda9" 9 9) ∧
      (plainBuild.MAX_PARTITIONS : Int) < 9 ∧
      (freshVolume plainBuild).mDevPath = none ∧
      (handleBlockEvent plainBuild sampleEnv (freshVolume plainBuild)
          (partitionEvent Action.NlActionAdd "/block/sda/sda9" 9 9)).map
          (fun r => (r.ret, r.vol.mDevPath))
        = some (0, some "/block/sda/sda9")) ∧
    ((runEvents multiPartBuild sampleEnv (freshVolume multiPartBuild) [diskAdd (some 1)]).bind
        (fun w => (handleBlockEvent multiPartBuild sampleEnv w
          (wrongMajorAdd "/block/sda/sda1" 1 1)).map
          (fun r => (w.mState, w.mDiskMajor, w.mDevPath, r.ret, r.vol.mState, r.vol.mDevPath)))
      = some (State.Pending, 8, none, 0, State.Pending, some "/block/sda/sda1")) := by
  refine ⟨⟨by decide, by decide, rfl, by decide⟩, ⟨by decide, by decide, rfl, by decide⟩,
    rfl⟩

/-- C6 (amended): for every Partition Add event that dispatch accepts in state
NoMedia, Pending or Idle and whose reported major differs from disk_major, or
(in the build without MOUNT_MULTI_PART) whose partition number is outside
1..MAX_PARTITIONS, the partition handler drops the event but no failure
reaches the caller: handle_block_event returns 0, the lifecycle state and
part_minors are unchanged, dev_path is set to the event's path, and
disk_num_parts is unchanged except that, without MOUNT_MULTI_PART, a partition
number within 1..MAX_PARTITIONS that exceeds it replaces it. -/
theorem C6_rejected_partition_add_amended (cfg : BuildConfig) (env : Collaborators)
    (v : Volume) (evt : NetlinkEvent)
    (hadd : evt.action = Action.NlActionAdd)
    (hpart : evt.DEVTYPE ≠ "disk")
    (hacc : accepts env v evt)
    (hstate : v.mState = State.NoMedia ∨ v.mState = State.Pending ∨ v.mState = State.Idle)
    (h : evt.MAJOR ≠ v.mDiskMajor ∨
      (cfg.MOUNT_MULTI_PART = false ∧
        (partitionNumber evt < 1 ∨ (cfg.MAX_PARTITIONS : Int) < partitionNumber evt))) :
    ∃ r, handleBlockEvent cfg env v evt = some r ∧ r.ret = 0 ∧ r.errno = none ∧
      r.vol.mState = v.mState ∧ r.vol.mPartMinors = v.mPartMinors ∧
      r.vol.mDevPath = some evt.DEVPATH ∧
      r.vol.mDiskNumParts =
        (if cfg.MOUNT_MULTI_PART = false ∧ 1 ≤ partitionNumber evt ∧
            partitionNumber evt ≤ (cfg.MAX_PARTITIONS : Int) ∧
            v.mDiskNumParts < partitionNumber evt
          then partitionNumber evt else v.mDiskNumParts) := by
  have hrej := handlePartitionAdded_rejected cfg env (afterScan env v evt) evt h
  have hst : (afterScan env v evt).mState = State.NoMedia ∨
      (afterScan env v evt).mState = State.Pending ∨
      (afterScan env v evt).mState = State.Idle := hstate
  rw [handleBlockEvent_add cfg env v evt hacc hadd,
    handleAdd_partition cfg env (afterScan env v evt) evt hst hpart _ _ hrej]
  exact ⟨_, rfl, rfl, rfl, rfl, rfl, rfl, rfl⟩

/-- C6 (witness): the Idle sample volume and the Add event of partition 3
reporting major 9. -/
theorem C6_rejected_partition_add_amended_witness :
    accepts sampleEnv (attachedVolume State.Idle (-1))
      (wrongMajorAdd "/block/sda/sda1" 3 3) ∧
    ∃ r, handleBlockEvent plainBuild sampleEnv (attachedVolume State.Idle (-1))
        (wrongMajorAdd "/block/sda/sda1" 3 3) = some r ∧ r.ret = 0 ∧ r.errno = none ∧
      r.vol.mState = State.Idle ∧ r.vol.mPartMinors = [1, -1, -1, -1] ∧
      r.vol.mDevPath = some "/block/sda/sda1" ∧
      r.vol.mDiskNumParts = 3 :=
  ⟨by decide,
    C6_rejected_partition_add_amended plainBuild sampleEnv (attachedVolume State.Idle (-1))
      (wrongMajorAdd "/block/sda/sda1" 3 3) rfl (by decide) (by decide)
      (Or.inr (Or.inr rfl)) (Or.inl (by decide))⟩

/-- C7: for every Partition Add event whose reported major differs from the
volume's disk_major, the partition handler rejects the event: it makes no
collaborator call, every slot of part_minors keeps its value and the lifecycle
state is unchanged; after handle_block_event on such an event of a device type
other than "disk", whenever dispatch accepts it, every slot of part_minors and
the lifecycle state are unchanged as well. -/
theorem C7_wrong_major_keeps_part_minors (cfg : BuildConfig) (env : Collaborators)
    (v : Volume) (evt : NetlinkEvent)
    (hmaj : evt.MAJOR ≠ v.mDiskMajor) :
    (∃ w, handlePartitionAdded cfg env v evt = some (w, []) ∧
      w.mPartMinors = v.mPartMinors ∧ (∀ i : Nat, w.mPartMinors[i]? = v.mPartMinors[i]?) ∧
      w.mState = v.mState) ∧
    (evt.action = Action.NlActionAdd → evt.DEVTYPE ≠ "disk" → accepts env v evt →
      ∃ r, handleBlockEvent cfg env v evt = some r ∧
        r.vol.mPartMinors = v.mPartMinors ∧ r.vol.mState = v.mState) := by
  refine ⟨⟨_, handlePartitionAdded_rejected cfg env v evt (Or.inl hmaj), rfl,
    fun _ => rfl, rfl⟩, ?_⟩
  intro hadd hpart hacc
  rw [handleBlockEvent_add cfg env v evt hacc hadd]
  by_cases hstate : v.mState = State.NoMedia ∨ v.mState = State.Pending ∨
      v.mState = State.Idle
  · have hst : (afterScan env v evt).mState = State.NoMedia ∨
        (afterScan env v evt).mState = State.Pending ∨
        (afterScan env v evt).mState = State.Idle := hstate
    rw [handleAdd_partition cfg env (afterScan env v evt) evt hst hpart _ _
      (handlePartitionAdded_rejected cfg env (afterScan env v evt) evt (Or.inl hmaj))]
    exact ⟨_, rfl, rfl, rfl⟩
  · refine ⟨noSuchDevice (afterScan env v evt), ?_, rfl, rfl⟩
    unfold handleAdd
    simp [Volume.getState, hstate]

/-- C7 (witness): the Idle sample volume and the Add event of partition 3
reporting major 9, in the partition handler and through dispatch. -/
theorem C7_wrong_major_keeps_part_minors_witness :
    (wrongMajorAdd "/block/sda/sda1" 3 3).MAJOR ≠ (attachedVolume State.Idle (-1)).mDiskMajor ∧
    (∃ w, handlePartitionAdded plainBuild sampleEnv (attachedVolume State.Idle (-1))
        (wrongMajorAdd "/block/sda/sda1" 3 3) = some (w, []) ∧
      w.mPartMinors = [1, -1, -1, -1] ∧
      (∀ i : Nat, w.mPartMinors[i]? = (attachedVolume State.Idle (-1)).mPartMinors[i]?) ∧
      w.mState = State.Idle) ∧
    (∃ r, handleBlockEvent plainBuild sampleEnv (attachedVolume State.Idle (-1))
        (wrongMajorAdd "/block/sda/sda1" 3 3) = some r ∧
      r.vol.mPartMinors = [1, -1, -1, -1] ∧ r.vol.mState = State.Idle) :=
  ⟨by decide,
    (C7_wrong_major_keeps_part_minors plainBuild sampleEnv (attachedVolume State.Idle (-1))
      (wrongMajorAdd "/block/sda/sda1" 3 3) (by decide)).1,
    (C7_wrong_major_keeps_part_minors plainBuild sampleEnv (attachedVolume State.Idle (-1))
      (wrongMajorAdd "/block/sda/sda1" 3 3) (by decide)).2 rfl (by decide) (by decide)⟩

/-- The partition handler on an event it records while the state is
Formatting: the slot is stored, the partition count raised if needed, and the
state is left alone. -/
theorem handlePartitionAdded_formatting (cfg : BuildConfig) (env : Collaborators)
    (v : Volume) (evt : NetlinkEvent)
    (hlo : 1 ≤ readPartNum cfg evt)
    (hhi : readPartNum cfg evt ≤ (cfg.MAX_PARTITIONS : Int))
    (hmaj : evt.MAJOR = v.mDiskMajor)
    (hfmt : v.mState = State.Formatting) :
    handlePartitionAdded cfg env v evt =
      some ({ v with
              mDiskNumParts :=
                if !cfg.MOUNT_MULTI_PART && decide (readPartNum cfg evt > v.mDiskNumParts)
                then readPartNum cfg evt else v.mDiskNumParts
              mPartMinors := v.mPartMinors.set (readPartNum cfg evt - 1).toNat evt.MINOR },
        []) := by
  have h1 : ¬ (readPartNum cfg evt > (cfg.MAX_PARTITIONS : Int)) := by omega
  have h2 : ¬ (readPartNum cfg evt < 1) := by omega
  have hs : ∀ a : List Int, storeSlot cfg.MAX_PARTITIONS a (readPartNum cfg evt - 1) evt.MINOR
      = some (a.set (readPartNum cfg evt - 1).toNat evt.MINOR) := by
    intro a
    unfold storeSlot
    rw [if_pos]
    omega
  unfold handlePartitionAdded
  by_cases hraise : (!cfg.MOUNT_MULTI_PART && decide (readPartNum cfg evt > v.mDiskNumParts)) = true
  · simp [h1, h2, hraise, hmaj, hs, Volume.getState, hfmt]
  · simp [h1, h2, hraise, hmaj, hs, Volume.getState, hfmt]

/-- A store into a slot inside the array: that slot holds the new value and
every other slot keeps its value. -/
theorem set_slot_spec (a : List Int) (k : Nat) (m : Int) (hk : k < a.length) :
    (a.set k m)[k]? = some m ∧ ∀ i : Nat, i ≠ k → (a.set k m)[i]? = a[i]? := by
  refine ⟨by simp [hk], ?_⟩
  intro i hi
  simp [List.getElem?_set, Ne.symm hi]

/-- The partition number the handler works with: under MOUNT_MULTI_PART a
number above 1 is replaced by 1, otherwise it is the event's number. -/
theorem readPartNum_eq (cfg : BuildConfig) (evt : NetlinkEvent) :
    readPartNum cfg evt =
      (if cfg.MOUNT_MULTI_PART = true ∧ 1 < partitionNumber evt then 1
        else partitionNumber evt) := by
  unfold readPartNum partitionNumber
  cases evt.PARTN with
  | none => simp
  | some k =>
    by_cases hb : cfg.MOUNT_MULTI_PART = true <;> by_cases hk : 1 < k <;> simp [hb, hk]

/-- Under MOUNT_MULTI_PART every partition number from 1 upwards is handled
as partition 1. -/
theorem readPartNum_multi (cfg : BuildConfig) (evt : NetlinkEvent)
    (hb : cfg.MOUNT_MULTI_PART = true) (hn : 1 ≤ partitionNumber evt) :
    readPartNum cfg evt = 1 := by
  rw [readPartNum_eq]
  split
  · rfl
  · rename_i h
    have : ¬ (1 < partitionNumber evt) := fun h1 => h ⟨hb, h1⟩
    omega

/-- An Add event received in a state other than NoMedia, Pending and Idle
fails with ENODEV, whatever the event: a pattern does not match, or the device
path differs from `mDevPath`, or the state check of the Add branch fails.  The
volume keeps everything but the `warned` flags of its patterns. -/
theorem handleBlockEvent_add_wrong_state (cfg : BuildConfig) (env : Collaborators)
    (v : Volume) (evt : NetlinkEvent)
    (hstate : ¬ (v.mState = State.NoMedia ∨ v.mState = State.Pending ∨
      v.mState = State.Idle))
    (hadd : evt.action = Action.NlActionAdd) :
    handleBlockEvent cfg env v evt = some (noSuchDevice (afterScan env v evt)) := by
  unfold handleBlockEvent
  dsimp only
  split
  · split
    · rfl
    · rw [hadd]
      dsimp only
      unfold handleAdd
      simp only [afterScan_getState]
      rw [if_pos hstate]
  · rfl

/-- C8 (counterexample): the sample volume has disk_num_parts = 2, disk major
8 and partition 1 recorded (part_minors [1, -1, -1, -1]), no mount retry due;
the event is the Add of partition 2 with major 8 and minor 2, which dispatch
accepts.  (a) In state Formatting handle_block_event fails with ENODEV before
the partition handler runs: slot 1 stays -1, nothing is recorded, in the build
without MOUNT_MULTI_PART and in the build with it.  (b) In state Pending in
the build with MOUNT_MULTI_PART the minor is recorded in slot 0, over
partition 1, and slot 1 stays -1. -/
theorem C8_partition_add_not_recorded_in_slot :
    ((twoPartVolume State.Formatting).mDiskNumParts = 2 ∧
      (twoPartVolume State.Formatting).mPartMinors = [1, -1, -1, -1] ∧
      (twoPartVolume State.Formatting).mRetryMount = false ∧
      (partitionEvent Action.NlActionAdd "/block/sda/sda1" 2 2).MAJOR
        = (twoPartVolume State.Formatting).mDiskMajor ∧
      partitionNumber (partitionEvent Action.NlActionAdd "/block/sda/sda1" 2 2) = 2 ∧
      accepts sampleEnv (twoPartVolume State.Formatting)
        (partitionEvent Action.NlActionAdd "/block/sda/sda1" 2 2) ∧
      (handleBlockEvent plainBuild sampleEnv (twoPartVolume State.Formatting)
          (partitionEvent Action.NlActionAdd "/block/sda/sda1" 2 2)).map
          (fun r => (r.ret, r.errno, r.vol.mState, r.vol.mPartMinors, r.effects))
        = some (-1, some Errno.ENODEV, State.Formatting, [1, -1, -1, -1], []) ∧
      (handleBlockEvent multiPartBuild sampleEnv (twoPartVolume State.Formatting)
          (partitionEvent Action.NlActionAdd "/block/sda/sda1" 2 2)).map
          (fun r => (r.ret, r.errno, r.vol.mState, r.vol.mPartMinors, r.effects))
        = some (-1, some Errno.ENODEV, State.Formatting, [1, -1, -1, -1], [])) ∧
    ((twoPartVolume State.Pending).mDiskNumParts = 2 ∧
      (twoPartVolume State.Pending).mPartMinors = [1, -1, -1, -1] ∧
      accepts sampleEnv (twoPartVolume State.Pending)
        (partitionEvent Action.NlActionAdd "/block/sda/sda1" 2 2) ∧
      (handlePartitionAdded multiPartBuild sampleEnv (twoPartVolume State.Pending)
          (partitionEvent Action.NlActionAdd "/block/sda/sda1" 2 2)).map
          (fun r => (r.1.mState, r.1.mPartMinors))
        = some (State.Idle, [2, -1, -1, -1]) ∧
      (handleBlockEvent multiPartBuild sampleEnv (twoPartVolume State.Pending)
          (partitionEvent Action.NlActionAdd "/block/sda/sda1" 2 2)).map
          (fun r => (r.ret, r.vol.mState, r.vol.mPartMinors))
        = some (0, State.Idle, [2, -1, -1, -1])) := by
  refine ⟨⟨rfl, rfl, rfl, rfl, rfl, by decide, rfl, rfl⟩, ⟨rfl, rfl, by decide, rfl, rfl⟩⟩

/-- C8 (amended): for every n with 1 <= n <= MAX_PARTITIONS and every volume
whose part_minors has MAX_PARTITIONS slots, take a Partition Add event for
partition n with major equal to disk_major and minor m, with no mount retry
due.  The partition handler works with the number p = n without
MOUNT_MULTI_PART and p = 1 with it.  Handled in state Pending, the event
leaves the state Idle with part_minors[p-1] = m and every other slot
unchanged, both in the partition handler and in handle_block_event when
dispatch accepts the event.  In state Formatting handle_block_event rejects
every Add event: it returns -1 with ENODEV, makes no collaborator call and
leaves the state Formatting and part_minors unchanged; only the partition
handler called on its own in state Formatting records part_minors[p-1] = m
and keeps the state Formatting.  This holds whatever disk_num_parts and the
other slots are, hence in particular when disk_num_parts = n and partitions
1..n-1 are recorded. -/
theorem C8_partition_add_amended (cfg : BuildConfig) (env : Collaborators)
    (v : Volume) (evt : NetlinkEvent) (n m : Int)
    (hn1 : 1 ≤ n) (hn2 : n ≤ (cfg.MAX_PARTITIONS : Int))
    (hsize : wellSized cfg v)
    (hpn : partitionNumber evt = n)
    (hmaj : evt.MAJOR = v.mDiskMajor)
    (hmin : evt.MINOR = m)
    (hretry : retryCondition cfg v = false) :
    readPartNum cfg evt = (if cfg.MOUNT_MULTI_PART = true then 1 else n) ∧
    (v.mState = State.Pending →
      ∃ w, handlePartitionAdded cfg env v evt = some (w, []) ∧ w.mState = State.Idle ∧
        w.mPartMinors[(readPartNum cfg evt - 1).toNat]? = some m ∧
        ∀ i : Nat, i ≠ (readPartNum cfg evt - 1).toNat →
          w.mPartMinors[i]? = v.mPartMinors[i]?) ∧
    (v.mState = State.Pending → evt.action = Action.NlActionAdd → evt.DEVTYPE ≠ "disk" →
      accepts env v evt →
      ∃ r, handleBlockEvent cfg env v evt = some r ∧ r.ret = 0 ∧
        r.vol.mState = State.Idle ∧
        r.vol.mPartMinors[(readPartNum cfg evt - 1).toNat]? = some m ∧
        ∀ i : Nat, i ≠ (readPartNum cfg evt - 1).toNat →
          r.vol.mPartMinors[i]? = v.mPartMinors[i]?) ∧
    (v.mState = State.Formatting → evt.action = Action.NlActionAdd →
      ∃ r, handleBlockEvent cfg env v evt = some r ∧ r.ret = -1 ∧
        r.errno = some Errno.ENODEV ∧ r.effects = [] ∧
        r.vol.mState = State.Formatting ∧ r.vol.mPartMinors = v.mPartMinors) ∧
    (v.mState = State.Formatting →
      ∃ w, handlePartitionAdded cfg env v evt = some (w, []) ∧
        w.mState = State.Formatting ∧
        w.mPartMinors[(readPartNum cfg evt - 1).toNat]? = some m ∧
        ∀ i : Nat, i ≠ (readPartNum cfg evt - 1).toNat →
          w.mPartMinors[i]? = v.mPartMinors[i]?) := by
  have hnum : readPartNum cfg evt = (if cfg.MOUNT_MULTI_PART = true then 1 else n) := by
    by_cases hb : cfg.MOUNT_MULTI_PART = true
    · rw [readPartNum_multi cfg evt hb (by rw [hpn]; exact hn1)]
      simp [hb]
    · have hb' : cfg.MOUNT_MULTI_PART = false := by simpa using hb
      rw [readPartNum_plain cfg evt hb', hpn]
      simp [hb']
  have hlo : 1 ≤ readPartNum cfg evt := by
    rw [hnum]
    split
    · exact le_refl 1
    · exact hn1
  have hhi : readPartNum cfg evt ≤ (cfg.MAX_PARTITIONS : Int) := by
    rw [hnum]
    split
    · omega
    · exact hn2
  have hk : (readPartNum cfg evt - 1).toNat < v.mPartMinors.length := by
    unfold wellSized at hsize
    omega
  have hslot := set_slot_spec v.mPartMinors (readPartNum cfg evt - 1).toNat m hk
  refine ⟨hnum, ?_, ?_, ?_, ?_⟩
  · intro hst
    have hrec := handlePartitionAdded_recorded cfg env v evt hlo hhi hmaj
      (by rw [hst]; decide) hretry
    rw [hmin] at hrec
    exact ⟨_, hrec, rfl, hslot.1, hslot.2⟩
  · intro hst hadd hpart hacc
    have hrec := handlePartitionAdded_recorded cfg env (afterScan env v evt) evt hlo hhi hmaj
      (by rw [afterScan_mState, hst]; decide)
      ((retryCondition_congr cfg v _ rfl rfl).trans hretry)
    rw [hmin] at hrec
    rw [handleBlockEvent_add cfg env v evt hacc hadd,
      handleAdd_partition cfg env (afterScan env v evt) evt (Or.inr (Or.inl hst)) hpart _ _
        hrec]
    exact ⟨_, rfl, rfl, rfl, hslot.1, hslot.2⟩
  · intro hst hadd
    rw [handleBlockEvent_add_wrong_state cfg env v evt (by rw [hst]; decide) hadd]
    exact ⟨_, rfl, rfl, rfl, rfl, hst, rfl⟩
  · intro hst
    have hrec := handlePartitionAdded_formatting cfg env v evt hlo hhi hmaj hst
    rw [hmin] at hrec
    exact ⟨_, hrec, hst, hslot.1, hslot.2⟩

/-- C8 (witness): partition 2 (minor 2) of a disk expecting two partitions,
partition 1 already recorded.  Without MOUNT_MULTI_PART, in state Pending the
event is accepted and recorded in slot 1 and the state becomes Idle; in state
Formatting the event fails with ENODEV and nothing changes.  With
MOUNT_MULTI_PART, in state Pending the event is recorded in slot 0. -/
theorem C8_partition_add_amended_witness :
    (wellSized plainBuild (twoPartVolume State.Pending) ∧
      accepts sampleEnv (twoPartVolume State.Pending)
        (partitionEvent Action.NlActionAdd "/block/sda/sda1" 2 2) ∧
      ∃ r, handleBlockEvent plainBuild sampleEnv (twoPartVolume State.Pending)
          (partitionEvent Action.NlActionAdd "/block/sda/sda1" 2 2) = some r ∧ r.ret = 0 ∧
        r.vol.mState = State.Idle ∧
        r.vol.mPartMinors[1]? = some 2 ∧
        ∀ i : Nat, i ≠ 1 → r.vol.mPartMinors[i]? = (twoPartVolume State.Pending).mPartMinors[i]?) ∧
    (∃ r, handleBlockEvent plainBuild sampleEnv (twoPartVolume State.Formatting)
          (partitionEvent Action.NlActionAdd "/block/sda/sda1" 2 2) = some r ∧ r.ret = -1 ∧
        r.errno = some Errno.ENODEV ∧ r.effects = [] ∧
        r.vol.mState = State.Formatting ∧
        r.vol.mPartMinors = (twoPartVolume State.Formatting).mPartMinors) ∧
    (readPartNum multiPartBuild (partitionEvent Action.NlActionAdd "/block/sda/sda1" 2 2) = 1 ∧
      ∃ r, handleBlockEvent multiPartBuild sampleEnv (twoPartVolume State.Pending)
          (partitionEvent Action.NlActionAdd "/block/sda/sda1" 2 2) = some r ∧ r.ret = 0 ∧
        r.vol.mState = State.Idle ∧
        r.vol.mPartMinors[0]? = some 2 ∧
        ∀ i : Nat, i ≠ 0 → r.vol.mPartMinors[i]? = (twoPartVolume State.Pending).mPartMinors[i]?) :=
  ⟨⟨by decide, by decide,
      (C8_partition_add_amended plainBuild sampleEnv (twoPartVolume State.Pending)
        (partitionEvent Action.NlActionAdd "/block/sda/sda1" 2 2) 2 2
        (by decide) (by decide) (by decide) rfl rfl rfl rfl).2.2.1 rfl rfl (by decide)
        (by decide)⟩,
    (C8_partition_add_amended plainBuild sampleEnv (twoPartVolume State.Formatting)
      (partitionEvent Action.NlActionAdd "/block/sda/sda1" 2 2) 2 2
      (by decide) (by decide) (by decide) rfl rfl rfl rfl).2.2.2.1 rfl rfl,
    ⟨(C8_partition_add_amended multiPartBuild sampleEnv (twoPartVolume State.Pending)
        (partitionEvent Action.NlActionAdd "/block/sda/sda1" 2 2) 2 2
        (by decide) (by decide) (by decide) rfl rfl rfl rfl).1,
      (C8_partition_add_amended multiPartBuild sampleEnv (twoPartVolume State.Pending)
        (partitionEvent Action.NlActionAdd "/block/sda/sda1" 2 2) 2 2
        (by decide) (by decide) (by decide) rfl rfl rfl rfl).2.2.1 rfl rfl (by decide)
        (by decide)⟩⟩

/-! ## C9: the disk-inserted notification -/

/-- The partition handler sends no notification: its only possible effect is
the mount retry. -/
theorem handlePartitionAdded_effects (cfg : BuildConfig) (env : Collaborators)
    (v w : Volume) (evt : NetlinkEvent) (eff : List Effect)
    (h : handlePartitionAdded cfg env v evt = some (w, eff)) :
    notifications eff = [] := by
  unfold handlePartitionAdded at h
  dsimp only at h
  repeat' split at h
  all_goals first
    | (simp only [Option.some.injEq, Prod.mk.injEq] at h
       rw [← h.2]
       rfl)
    | cases h

/-- When VolumeDiskInserted is sent: exactly by an Add event that returns 0
and leaves the state Idle. -/
theorem diskInserted_iff (cfg : BuildConfig) (env : Collaborators) (v : Volume)
    (evt : NetlinkEvent) (r : Outcome) (h : handleBlockEvent cfg env v evt = some r) :
    ResponseCode.VolumeDiskInserted ∈ notifications r.effects ↔
      (evt.action = Action.NlActionAdd ∧ r.ret = 0 ∧ r.vol.mState = State.Idle) := by
  have hns : ∀ w : Volume, ¬ (ResponseCode.VolumeDiskInserted ∈
      notifications (noSuchDevice w).effects) := by
    intro w; simp [noSuchDevice, notifications]
  have hret : ∀ w : Volume, (noSuchDevice w).ret ≠ 0 := by
    intro w; simp [noSuchDevice]
  unfold handleBlockEvent at h
  simp only at h
  split at h
  · split at h
    · cases h
      exact ⟨fun hc => absurd hc (hns _), fun hc => absurd hc.2.1 (hret _)⟩
    · cases ha : evt.action with
      | NlActionAdd =>
        rw [ha] at h
        simp only at h
        unfold handleAdd at h
        simp only at h
        split at h
        · cases h
          exact ⟨fun hc => absurd hc (hns _), fun hc => absurd hc.2.1 (hret _)⟩
        · split at h
          · cases h
            simp [notifications]
          · split at h
            · cases h
            · rename_i v2 eff hp
              have he := handlePartitionAdded_effects cfg env _ v2 evt eff hp
              cases h
              simp only [notifications_append, he, Volume.getState]
              by_cases hi : v2.mState = State.Idle <;> simp [hi, notifications]
      | NlActionRemove =>
        rw [ha] at h
        simp only at h
        split at h
        · cases h
          exact ⟨fun hc => absurd hc (hns _), fun hc => by simp at hc⟩
        · cases h
          have hd := handleDiskRemoved_spec env
            (handlePartitionRemoved env (afterScan env v evt).clearDevPath evt).1 evt
          simp only [notifications_append, hd.2.1]
          unfold handlePartitionRemoved
          simp only
          split
          · simp [notifications]
          · split
            · split <;> simp [notifications]
            · split <;> simp [notifications]
      | NlActionChange =>
        rw [ha] at h
        simp only at h
        split at h
        · cases h
          exact ⟨fun hc => absurd hc (hns _), fun hc => by simp at hc⟩
        · split at h <;> cases h <;> simp [notifications]
      | NlActionUnknown =>
        rw [ha] at h
        simp only at h
        split at h
        · cases h
          exact ⟨fun hc => absurd hc (hns _), fun hc => by simp at hc⟩
        · cases h
          simp [notifications]
  · cases h
    exact ⟨fun hc => absurd hc (hns _), fun hc => absurd hc.2.1 (hret _)⟩

/-- C9 (the code at the failing inputs): in the build without
MOUNT_MULTI_PART, starting from the freshly constructed volume, (a) the Add
event of disk (8,0) with NPARTS = 3 returns 0 and emits VolumeDiskInserted
although afterwards disk_num_parts = 3 and slots 1 and 2 of part_minors are
still -1; (b) after that event and a Change event of the same disk with
NPARTS = 3 the volume is Pending with every slot -1, and the Add event of
partition 2 alone (minor 2) makes the state Idle and emits VolumeDiskInserted
with slots 0 and 2 still -1. -/
theorem C9_inserted_with_unassigned_slots :
    ((handleBlockEvent plainBuild sampleEnv (freshVolume plainBuild) (diskAdd (some 3))).map
        (fun r => (r.ret, notifications r.effects, r.vol.mState, r.vol.mDiskNumParts,
          r.vol.mPartMinors))
      = some (0, [ResponseCode.VolumeDiskInserted], State.Idle, 3, [0, -1, -1, -1])) ∧
    ((runEvents plainBuild sampleEnv (freshVolume plainBuild)
        [diskAdd (some 3), diskChange (some 3)]).map
        (fun w => (w.mState, w.mDiskNumParts, w.mPartMinors))
      = some (State.Pending, 3, [-1, -1, -1, -1])) ∧
    ((runEvents plainBuild sampleEnv (freshVolume plainBuild)
        [diskAdd (some 3), diskChange (some 3)]).bind
        (fun w => (handleBlockEvent plainBuild sampleEnv w
          (partitionEvent Action.NlActionAdd "/block/sda" 2 2)).map
          (fun r => (r.ret, notifications r.effects, r.vol.mState, r.vol.mDiskNumParts,
            r.vol.mPartMinors)))
      = some (0, [ResponseCode.VolumeDiskInserted], State.Idle, 3, [-1, 2, -1, -1])) := by
  refine ⟨by decide, by decide, by decide⟩

/-! ## C10: Change events -/

/-- A call of `match` leaves the pattern text and the pattern kind alone. -/
theorem matches_info (f : String → String → Bool) (p : PathInfo) (dp : String) :
    (p.matches f dp).info.pattern = p.pattern ∧
    (p.matches f dp).info.patternType = p.patternType := by
  obtain ⟨pat, ty, w⟩ := p
  cases ty
  · simp only [PathInfo.matches]
    split <;> exact ⟨rfl, rfl⟩
  · exact ⟨rfl, rfl⟩

/-- The pattern scan can only change `warned` flags: the pattern texts and
kinds afterwards are the ones before, in the same order. -/
theorem scanPaths_same_patterns (f : String → String → Bool) (ps : List PathInfo)
    (dp : String) :
    (scanPaths f ps dp).2.map (fun p => (p.pattern, p.patternType)) =
      ps.map (fun p => (p.pattern, p.patternType)) := by
  induction ps with
  | nil => rfl
  | cons p ps ih =>
    have hm := matches_info f p dp
    by_cases h : (p.matches f dp).ret = true
    · simp [scanPaths, h, hm.1, hm.2]
    · simp [scanPaths, h, hm.1, hm.2, ih]

/-- Dispatch of an accepted Change event: the disk-changed handler for a
disk, the partition-changed handler otherwise, and the call returns 0. -/
theorem handleBlockEvent_change (cfg : BuildConfig) (env : Collaborators) (v : Volume)
    (evt : NetlinkEvent) (hacc : accepts env v evt)
    (hchg : evt.action = Action.NlActionChange) :
    handleBlockEvent cfg env v evt =
      some { ret := 0, errno := none
             vol := if evt.DEVTYPE = "disk" then handleDiskChanged cfg (afterScan env v evt) evt
                    else handlePartitionChanged (afterScan env v evt) evt
             effects := [] } := by
  obtain ⟨hm, hp⟩ := hacc
  unfold patternMatches at hm
  have hp' : v.mDevPath = some evt.DEVPATH := by
    rcases hp with hp | ⟨ha, _⟩
    · exact hp
    · rw [hchg] at ha; cases ha
  unfold handleBlockEvent
  by_cases hd : evt.DEVTYPE = "disk"
  · simp [scanPaths_fst, hm, hchg, hp', hd]
  · simp [scanPaths_fst, hm, hchg, hp', hd]

/-- The disk-changed handler on an event for the current disk. -/
theorem handleDiskChanged_same_disk (cfg : BuildConfig) (v : Volume) (evt : NetlinkEvent)
    (hmaj : evt.MAJOR = v.mDiskMajor) (hmin : evt.MINOR = v.mDiskMinor) :
    handleDiskChanged cfg v evt =
      { v with mDiskNumParts := readNumParts cfg evt
               mPartMinors := List.replicate cfg.MAX_PARTITIONS (-1)
               mState := if v.mState = State.Formatting then State.Formatting
                         else if readNumParts cfg evt = 0 then State.Idle
                         else State.Pending } := by
  unfold handleDiskChanged
  by_cases hf : v.mState = State.Formatting
  · simp [hmaj, hmin, Volume.getState, hf, clearPartMinors]
  · by_cases h0 : readNumParts cfg evt = 0
    · simp [hmaj, hmin, Volume.getState, hf, clearPartMinors, h0, Volume.setState]
    · simp [hmaj, hmin, Volume.getState, hf, clearPartMinors, h0, Volume.setState]

theorem readNumParts_eq_zero_iff (cfg : BuildConfig) (evt : NetlinkEvent) :
    readNumParts cfg evt = 0 ↔ partitionCount evt = 0 := by
  unfold readNumParts partitionCount
  cases hN : evt.NPARTS with
  | none => simp
  | some n =>
    by_cases h1 : n > 1
    · have h0 : n ≠ 0 := by omega
      by_cases hm : cfg.MOUNT_MULTI_PART = true <;> simp [h1, h0, hm]
    · simp [h1]

/-- C10: for every Change event that dispatch accepts, handle_block_event
returns 0 without any collaborator call, and: (a) for a disk whose (major,
minor) equals (disk_major, disk_minor), afterwards every part_minors slot is
-1, the state is unchanged if it was Formatting, else Idle when the event's
partition count (1 when NPARTS is absent) is 0 and Pending otherwise, and
disk_num_parts is the count the handler read, which without MOUNT_MULTI_PART
is the event's partition count; (b) for a disk whose (major, minor) differs,
the disk-changed handler returns the volume as it is; (c) for a partition the
partition-changed handler returns the volume as it is.  In (b) and (c) the
volume after the call is the one dispatch handed to the handler, which differs
from the one before the call at most in the one-time-warning flag set by the
pattern match. -/
theorem C10_change_event (cfg : BuildConfig) (env : Collaborators) (v : Volume)
    (evt : NetlinkEvent)
    (hchg : evt.action = Action.NlActionChange)
    (hacc : accepts env v evt) :
    (evt.DEVTYPE = "disk" → evt.MAJOR = v.mDiskMajor → evt.MINOR = v.mDiskMinor →
      ∃ r, handleBlockEvent cfg env v evt = some r ∧ r.ret = 0 ∧ r.effects = [] ∧
        r.vol.mDiskNumParts = readNumParts cfg evt ∧
        (cfg.MOUNT_MULTI_PART = false → r.vol.mDiskNumParts = partitionCount evt) ∧
        r.vol.mPartMinors = List.replicate cfg.MAX_PARTITIONS (-1) ∧
        r.vol.mState =
          (if v.mState = State.Formatting then State.Formatting
           else if partitionCount evt = 0 then State.Idle else State.Pending) ∧
        r.vol.mDiskMajor = v.mDiskMajor ∧ r.vol.mDiskMinor = v.mDiskMinor ∧
        r.vol.mDevPath = v.mDevPath) ∧
    (evt.DEVTYPE = "disk" → ¬ (evt.MAJOR = v.mDiskMajor ∧ evt.MINOR = v.mDiskMinor) →
      handleDiskChanged cfg v evt = v ∧
      handleBlockEvent cfg env v evt =
        some { ret := 0, errno := none, vol := afterScan env v evt, effects := [] }) ∧
    (evt.DEVTYPE ≠ "disk" →
      handlePartitionChanged v evt = v ∧
      handleBlockEvent cfg env v evt =
        some { ret := 0, errno := none, vol := afterScan env v evt, effects := [] }) := by
  rw [handleBlockEvent_change cfg env v evt hacc hchg]
  refine ⟨?_, ?_, ?_⟩
  · intro hd hmaj hmin
    rw [if_pos hd, handleDiskChanged_same_disk cfg (afterScan env v evt) evt hmaj hmin]
    refine ⟨_, rfl, rfl, rfl, rfl, ?_, rfl, ?_, rfl, rfl, rfl⟩
    · intro hb
      exact readNumParts_plain cfg evt hb
    · show (if v.mState = State.Formatting then State.Formatting
          else if readNumParts cfg evt = 0 then State.Idle else State.Pending) = _
      by_cases h0 : partitionCount evt = 0
      · simp [h0, (readNumParts_eq_zero_iff cfg evt).mpr h0]
      · simp [h0, mt (readNumParts_eq_zero_iff cfg evt).mp h0]
  · intro hd hne
    have hne' : evt.MAJOR ≠ v.mDiskMajor ∨ evt.MINOR ≠ v.mDiskMinor := by
      by_cases h1 : evt.MAJOR = v.mDiskMajor
      · exact Or.inr (fun h2 => hne ⟨h1, h2⟩)
      · exact Or.inl h1
    have hk : ∀ w : Volume, w.mDiskMajor = v.mDiskMajor → w.mDiskMinor = v.mDiskMinor →
        handleDiskChanged cfg w evt = w := by
      intro w h1 h2
      unfold handleDiskChanged
      rw [h1, h2, if_pos hne']
    refine ⟨hk v rfl rfl, ?_⟩
    rw [if_pos hd, hk (afterScan env v evt) rfl rfl]
  · intro hd
    refine ⟨rfl, ?_⟩
    rw [if_neg hd]
    rfl

/-- C10 (witness): the sample volume (disk (8,0), Idle) with the Change event
of that disk with NPARTS = 2, and with the Change event of partition (8,1). -/
theorem C10_change_event_witness :
    (accepts sampleEnv (sharedPathVolume State.Idle (-1)) (diskChange (some 2)) ∧
      ∃ r, handleBlockEvent plainBuild sampleEnv (sharedPathVolume State.Idle (-1))
          (diskChange (some 2)) = some r ∧ r.ret = 0 ∧ r.effects = [] ∧
        r.vol.mDiskNumParts = 2 ∧
        (plainBuild.MOUNT_MULTI_PART = false → r.vol.mDiskNumParts = 2) ∧
        r.vol.mPartMinors = [-1, -1, -1, -1] ∧
        r.vol.mState = State.Pending ∧
        r.vol.mDiskMajor = 8 ∧ r.vol.mDiskMinor = 0 ∧
        r.vol.mDevPath = some "/block/sda") ∧
    (accepts sampleEnv (sharedPathVolume State.Idle (-1))
        (partitionEvent Action.NlActionChange "/block/sda" 1 1) ∧
      handleBlockEvent plainBuild sampleEnv (sharedPathVolume State.Idle (-1))
          (partitionEvent Action.NlActionChange "/block/sda" 1 1)
        = some { ret := 0, errno := none, vol := sharedPathVolume State.Idle (-1),
                 effects := [] }) :=
  ⟨⟨by decide,
      (C10_change_event plainBuild sampleEnv (sharedPathVolume State.Idle (-1))
        (diskChange (some 2)) rfl (by decide)).1 rfl rfl rfl⟩,
    ⟨by decide,
      ((C10_change_event plainBuild sampleEnv (sharedPathVolume State.Idle (-1))
        (partitionEvent Action.NlActionChange "/block/sda" 1 1) rfl (by decide)).2.2
        (by decide)).2⟩⟩

/-! ## C11 to C14: crypto-substitution bookkeeping -/

/-- What `updateDeviceInfo` does when it does not bail out and the store is in
bounds. -/
theorem updateDeviceInfo_success (cfg : BuildConfig) (v : Volume) (new_path : String)
    (new_major new_minor : Int)
    (hidx : v.mPartIdx ≠ -1) (hpaths : v.mPaths.length = 1)
    (hlo : 1 ≤ new_minor) (hhi : new_minor ≤ (cfg.MAX_PARTITIONS : Int)) :
    updateDeviceInfo cfg v new_path new_major new_minor =
      some (0, { v with
                 mPaths := [PathInfo.new new_path]
                 mOrigDiskMajor := v.mDiskMajor
                 mOrigDiskMinor := v.mDiskMinor
                 mOrigPartIdx := v.mPartIdx
                 mOrigPartMinors := v.mPartMinors
                 mDiskMajor := new_major
                 mDiskMinor := new_minor
                 mPartIdx := new_minor
                 mPartMinors := v.mPartMinors.set (new_minor - 1).toNat new_minor
                 mIsDecrypted := 1 }) := by
  have hs : storeSlot cfg.MAX_PARTITIONS v.mPartMinors (new_minor - 1) new_minor
      = some (v.mPartMinors.set (new_minor - 1).toNat new_minor) := by
    unfold storeSlot
    rw [if_pos]
    omega
  have ht : v.mPaths.tail = [] := by
    cases hp : v.mPaths with
    | nil => rfl
    | cons a l =>
      rw [hp] at hpaths
      simp at hpaths
      simp [hpaths]
  unfold updateDeviceInfo
  simp [hidx, hpaths, addPath, ht, hs]

/-- Every successful call of `updateDeviceInfo` is of the form described by
`updateDeviceInfo_success`. -/
theorem updateDeviceInfo_eq_some_zero (cfg : BuildConfig) (v w : Volume) (new_path : String)
    (new_major new_minor : Int)
    (h : updateDeviceInfo cfg v new_path new_major new_minor = some (0, w)) :
    v.mPartIdx ≠ -1 ∧ v.mPaths.length = 1 ∧
    1 ≤ new_minor ∧ new_minor ≤ (cfg.MAX_PARTITIONS : Int) ∧
    w = { v with
          mPaths := [PathInfo.new new_path]
          mOrigDiskMajor := v.mDiskMajor
          mOrigDiskMinor := v.mDiskMinor
          mOrigPartIdx := v.mPartIdx
          mOrigPartMinors := v.mPartMinors
          mDiskMajor := new_major
          mDiskMinor := new_minor
          mPartIdx := new_minor
          mPartMinors := v.mPartMinors.set (new_minor - 1).toNat new_minor
          mIsDecrypted := 1 } := by
  by_cases hidx : v.mPartIdx = -1
  · simp [updateDeviceInfo, hidx] at h
  · by_cases hpaths : v.mPaths.length = 1
    · by_cases hb : 0 ≤ new_minor - 1 ∧ new_minor - 1 < (cfg.MAX_PARTITIONS : Int)
      · have hlo : 1 ≤ new_minor := by omega
        have hhi : new_minor ≤ (cfg.MAX_PARTITIONS : Int) := by omega
        rw [updateDeviceInfo_success cfg v new_path new_major new_minor hidx hpaths hlo hhi] at h
        simp only [Option.some.injEq, Prod.mk.injEq, true_and] at h
        exact ⟨hidx, hpaths, hlo, hhi, h.symm⟩
      · have hs : ∀ a : List Int,
            storeSlot cfg.MAX_PARTITIONS a (new_minor - 1) new_minor = none := by
          intro a
          unfold storeSlot
          rw [if_neg hb]
        simp [updateDeviceInfo, hidx, hpaths, hs] at h
    · simp [updateDeviceInfo, hidx, hpaths] at h

/-- C11: round trip.  Whenever update_device_info(new_path, new_major,
new_minor) succeeds (returns 0), revert_device_info applied to the resulting
volume gives a volume whose disk_major, disk_minor, part_idx and part_minors
(the whole array, hence every slot) are the ones before update_device_info was
called, with is_decrypted 0. -/
theorem C11_update_then_revert (cfg : BuildConfig) (v w : Volume) (new_path : String)
    (new_major new_minor : Int)
    (h : updateDeviceInfo cfg v new_path new_major new_minor = some (0, w)) :
    (revertDeviceInfo w).mDiskMajor = v.mDiskMajor ∧
    (revertDeviceInfo w).mDiskMinor = v.mDiskMinor ∧
    (revertDeviceInfo w).mPartIdx = v.mPartIdx ∧
    (revertDeviceInfo w).mPartMinors = v.mPartMinors ∧
    (∀ i : Nat, (revertDeviceInfo w).mPartMinors[i]? = v.mPartMinors[i]?) ∧
    (revertDeviceInfo w).mIsDecrypted = 0 := by
  obtain ⟨_, _, _, _, hw⟩ := updateDeviceInfo_eq_some_zero cfg v w new_path new_major new_minor h
  subst hw
  refine ⟨rfl, rfl, rfl, rfl, fun _ => rfl, rfl⟩

/-- C11 (witness): the single-partition sample volume (disk (8,0), partition
index 1, slots [1,-1,-1,-1]) is switched to the mapping device (254,2) under
"/block/dm-2" and reverted. -/
theorem C11_update_then_revert_witness :
    ∃ w, updateDeviceInfo plainBuild singlePartVolume "/block/dm-2" 254 2 = some (0, w) ∧
      w.mDiskMajor = 254 ∧ w.mPartMinors = [1, 2, -1, -1] ∧
      (revertDeviceInfo w).mDiskMajor = 8 ∧
      (revertDeviceInfo w).mDiskMinor = 0 ∧
      (revertDeviceInfo w).mPartIdx = 1 ∧
      (revertDeviceInfo w).mPartMinors = [1, -1, -1, -1] ∧
      (∀ i : Nat, (revertDeviceInfo w).mPartMinors[i]? = singlePartVolume.mPartMinors[i]?) ∧
      (revertDeviceInfo w).mIsDecrypted = 0 :=
  ⟨_, rfl, rfl, rfl,
    C11_update_then_revert plainBuild singlePartVolume _ "/block/dm-2" 254 2 rfl⟩

/-- C12: revert_device_info is the identity on every volume whose is_decrypted
is 0, and it is idempotent on every volume. -/
theorem C12_revert_identity_idempotent (v : Volume) :
    (v.mIsDecrypted = 0 → revertDeviceInfo v = v) ∧
    revertDeviceInfo (revertDeviceInfo v) = revertDeviceInfo v := by
  have hid : ∀ u : Volume, u.mIsDecrypted = 0 → revertDeviceInfo u = u := by
    intro u hu
    unfold revertDeviceInfo
    simp [hu]
  refine ⟨hid v, ?_⟩
  by_cases h : v.mIsDecrypted = 0
  · rw [hid v h, hid v h]
  · apply hid
    unfold revertDeviceInfo
    simp [h]

/-- C12 (witness): the single-partition sample volume, not decrypted, and the
same volume after a substitution. -/
theorem C12_revert_identity_idempotent_witness :
    singlePartVolume.mIsDecrypted = 0 ∧
    revertDeviceInfo singlePartVolume = singlePartVolume ∧
    revertDeviceInfo (revertDeviceInfo { singlePartVolume with mIsDecrypted := 1 })
      = revertDeviceInfo { singlePartVolume with mIsDecrypted := 1 } :=
  ⟨rfl, (C12_revert_identity_idempotent singlePartVolume).1 rfl,
    (C12_revert_identity_idempotent { singlePartVolume with mIsDecrypted := 1 }).2⟩

/-- C13: update_device_info returns -1 if and only if part_idx is -1 or the
number of configured path patterns is not exactly 1; in that case it does
return (with -1) and the volume is unchanged; it never returns anything but -1
or 0. -/
theorem C13_update_failure (cfg : BuildConfig) (v : Volume) (new_path : String)
    (new_major new_minor : Int) :
    ((∃ w, updateDeviceInfo cfg v new_path new_major new_minor = some (-1, w)) ↔
      (v.mPartIdx = -1 ∨ v.mPaths.length ≠ 1)) ∧
    ((v.mPartIdx = -1 ∨ v.mPaths.length ≠ 1) →
      updateDeviceInfo cfg v new_path new_major new_minor = some (-1, v)) ∧
    (∀ r w, updateDeviceInfo cfg v new_path new_major new_minor = some (r, w) →
      (r = -1 ∨ r = 0) ∧ (r = -1 → w = v)) := by
  have hfail : (v.mPartIdx = -1 ∨ v.mPaths.length ≠ 1) →
      updateDeviceInfo cfg v new_path new_major new_minor = some (-1, v) := by
    intro hc
    unfold updateDeviceInfo
    by_cases hidx : v.mPartIdx = -1
    · simp [hidx]
    · have hp : v.mPaths.length ≠ 1 := by
        rcases hc with hc | hc
        · exact absurd hc hidx
        · exact hc
      simp [hidx, hp]
  have hok : ¬ (v.mPartIdx = -1 ∨ v.mPaths.length ≠ 1) →
      ∀ r w, updateDeviceInfo cfg v new_path new_major new_minor = some (r, w) → r = 0 := by
    intro hc r w h
    have hidx : v.mPartIdx ≠ -1 := fun hx => hc (Or.inl hx)
    have hp : v.mPaths.length = 1 := by
      by_contra hx
      exact hc (Or.inr hx)
    unfold updateDeviceInfo at h
    simp only [hidx, hp, if_false, ne_eq, not_true_eq_false] at h
    split at h
    · cases h
    · simp only [Option.some.injEq, Prod.mk.injEq] at h
      exact h.1.symm
  refine ⟨⟨?_, fun hc => ⟨v, hfail hc⟩⟩, hfail, ?_⟩
  · rintro ⟨w, hw⟩
    by_contra hc
    have := hok hc (-1) w hw
    omega
  · intro r w h
    by_cases hc : v.mPartIdx = -1 ∨ v.mPaths.length ≠ 1
    · rw [hfail hc] at h
      simp only [Option.some.injEq, Prod.mk.injEq] at h
      exact ⟨Or.inl h.1.symm, fun _ => h.2.symm⟩
    · have h0 := hok hc r w h
      exact ⟨Or.inr h0, fun hr => by omega⟩

/-- C13 (witness): the whole-set sample volume (part_idx = -1) refuses the
substitution and stays as it is. -/
theorem C13_update_failure_witness :
    ((attachedVolume State.Idle (-1)).mPartIdx = -1 ∨
      (attachedVolume State.Idle (-1)).mPaths.length ≠ 1) ∧
    updateDeviceInfo plainBuild (attachedVolume State.Idle (-1)) "/block/dm-2" 254 2
      = some (-1, attachedVolume State.Idle (-1)) :=
  ⟨Or.inl rfl,
    (C13_update_failure plainBuild (attachedVolume State.Idle (-1)) "/block/dm-2" 254 2).2.1
      (Or.inl rfl)⟩

/-- C14: whenever update_device_info(new_path, new_major, new_minor) succeeds
with 1 <= new_minor <= MAX_PARTITIONS on a volume whose part_minors has
MAX_PARTITIONS slots: the volume has exactly one path pattern, the one built
from new_path; orig_disk_major, orig_disk_minor, orig_part_idx and
orig_part_minors are the disk_major, disk_minor, part_idx and part_minors from
before the call; disk_major = new_major, disk_minor = new_minor, part_idx =
new_minor, part_minors[new_minor-1] = new_minor with every other slot
unchanged; and is_decrypted is 1. -/
theorem C14_update_success (cfg : BuildConfig) (v w : Volume) (new_path : String)
    (new_major new_minor : Int)
    (h : updateDeviceInfo cfg v new_path new_major new_minor = some (0, w))
    (hlo : 1 ≤ new_minor) (hhi : new_minor ≤ (cfg.MAX_PARTITIONS : Int))
    (hsize : wellSized cfg v) :
    w.mPaths = [PathInfo.new new_path] ∧
    w.mOrigDiskMajor = v.mDiskMajor ∧ w.mOrigDiskMinor = v.mDiskMinor ∧
    w.mOrigPartIdx = v.mPartIdx ∧ w.mOrigPartMinors = v.mPartMinors ∧
    w.mDiskMajor = new_major ∧ w.mDiskMinor = new_minor ∧ w.mPartIdx = new_minor ∧
    w.mPartMinors[(new_minor - 1).toNat]? = some new_minor ∧
    (∀ i : Nat, i ≠ (new_minor - 1).toNat → w.mPartMinors[i]? = v.mPartMinors[i]?) ∧
    w.mIsDecrypted = 1 := by
  obtain ⟨_, _, _, _, hw⟩ := updateDeviceInfo_eq_some_zero cfg v w new_path new_major new_minor h
  have hk : (new_minor - 1).toNat < v.mPartMinors.length := by
    unfold wellSized at hsize
    omega
  have hslot := set_slot_spec v.mPartMinors (new_minor - 1).toNat new_minor hk
  subst hw
  exact ⟨rfl, rfl, rfl, rfl, rfl, rfl, rfl, rfl, hslot.1, hslot.2, rfl⟩

/-- C14 (witness): the single-partition sample volume switched to the mapping
device (254,2) under "/block/dm-2". -/
theorem C14_update_success_witness :
    ∃ w, updateDeviceInfo plainBuild singlePartVolume "/block/dm-2" 254 2 = some (0, w) ∧
      (1 : Int) ≤ 2 ∧ (2 : Int) ≤ (plainBuild.MAX_PARTITIONS : Int) ∧
      wellSized plainBuild singlePartVolume ∧
      w.mPaths = [PathInfo.new "/block/dm-2"] ∧
      w.mOrigDiskMajor = 8 ∧ w.mOrigDiskMinor = 0 ∧
      w.mOrigPartIdx = 1 ∧ w.mOrigPartMinors = [1, -1, -1, -1] ∧
      w.mDiskMajor = 254 ∧ w.mDiskMinor = 2 ∧ w.mPartIdx = 2 ∧
      w.mPartMinors[1]? = some 2 ∧
      (∀ i : Nat, i ≠ 1 → w.mPartMinors[i]? = singlePartVolume.mPartMinors[i]?) ∧
      w.mIsDecrypted = 1 :=
  ⟨_, rfl, by decide, by decide, by decide,
    C14_update_success plainBuild singlePartVolume _ "/block/dm-2" 254 2 rfl
      (by decide) (by decide) (by decide)⟩

/-! ## C15 and C16: device-node enumeration -/

/-- C15: for every volume in whole-set mode (part_idx == -1) with
disk_num_parts == 0 and every max >= 1, get_device_nodes(max) returns the
count 1 and stores exactly one identifier, MKDEV(disk_major, disk_minor).
The method writes no member of the volume, which is why its embedding returns
no volume. -/
theorem C15_whole_disk_node (cfg : BuildConfig) (env : Collaborators) (v : Volume)
    (max : Int) (hidx : v.mPartIdx = -1) (hn : v.mDiskNumParts = 0) (_hmax : 1 ≤ max) :
    getDeviceNodes cfg env v max = some (1, [env.MKDEV v.mDiskMajor v.mDiskMinor]) := by
  unfold getDeviceNodes
  simp [hidx, hn]

/-- C15 (witness): the whole-set sample volume with disk (8,0) and no
partition expected, and room for four device nodes. -/
theorem C15_whole_disk_node_witness :
    ({ attachedVolume State.Idle (-1) with mDiskNumParts := 0 } : Volume).mPartIdx = -1 ∧
    (1 : Int) ≤ 4 ∧
    getDeviceNodes plainBuild sampleEnv
        { attachedVolume State.Idle (-1) with mDiskNumParts := 0 } 4
      = some (1, [sampleEnv.MKDEV 8 0]) :=
  ⟨rfl, by decide,
    C15_whole_disk_node plainBuild sampleEnv
      { attachedVolume State.Idle (-1) with mDiskNumParts := 0 } 4 rfl rfl (by decide)⟩

/-- Reading the first `k` slots of an array that has at least `k` of its
`size` slots. -/
theorem mapM_loadSlot (size : Nat) (a : List Int) (k : Nat)
    (hk : k ≤ a.length) (hs : k ≤ size) :
    (List.range k).mapM (fun i => loadSlot size a (i : Int)) = some (a.take k) := by
  simp only [bind_pure_comp, List.map_eq_map]
  induction k with
  | zero => rfl
  | succ k ih =>
    have hk' : k < a.length := by omega
    have hload : loadSlot size a (k : Int) = some a[k] := by
      unfold loadSlot
      have : (0 : Int) ≤ (k : Int) ∧ (k : Int) < (size : Int) := by omega
      simp [this, hk']
    rw [List.range_succ, List.map_append, List.mapM_append, ih (by omega) (by omega)]
    simp only [List.map_cons, List.map_nil, List.mapM_cons, List.mapM_nil, hload]
    rw [List.take_succ, List.getElem?_eq_getElem hk']
    rfl

/-- What `getDeviceNodes` does in whole-set mode with partitions expected: it
stores the identifiers of the first min(n, max) slots, in slot order, and
returns n itself. -/
theorem getDeviceNodes_whole_set (cfg : BuildConfig) (env : Collaborators) (v : Volume)
    (max : Int) (hidx : v.mPartIdx = -1) (hn : v.mDiskNumParts ≠ 0)
    (hsize : wellSized cfg v)
    (hfit : (min v.mDiskNumParts max).toNat ≤ cfg.MAX_PARTITIONS) :
    getDeviceNodes cfg env v max =
      some (v.mDiskNumParts,
        (v.mPartMinors.take (min v.mDiskNumParts max).toNat).map
          (env.MKDEV v.mDiskMajor)) := by
  unfold wellSized at hsize
  unfold getDeviceNodes
  simp only [hidx, hn, if_true, if_false]
  rw [mapM_loadSlot cfg.MAX_PARTITIONS v.mPartMinors _ (by omega) hfit]

/-- C16 (the code at the failing input): the whole-set sample volume expects
three partitions and has recorded minors 1, 2 and 3, a state the build without
MOUNT_MULTI_PART reaches from the fresh volume; get_device_nodes(2) stores the
two identifiers (8,1) and (8,2) but reports the count 3, not min(3, 2) = 2. -/
theorem C16_reported_count_exceeds_max :
    ((runEvents plainBuild sampleEnv (freshVolume plainBuild)
        [diskAdd (some 3), partitionEvent Action.NlActionAdd "/block/sda" 1 1,
          partitionEvent Action.NlActionAdd "/block/sda" 2 2,
          partitionEvent Action.NlActionAdd "/block/sda" 3 3])
      = some threePartVolume) ∧
    threePartVolume.mPartIdx = -1 ∧ threePartVolume.mDiskNumParts = 3 ∧
    getDeviceNodes plainBuild sampleEnv threePartVolume 2
      = some (3, [8 * 256 + 1, 8 * 256 + 2]) ∧
    min threePartVolume.mDiskNumParts 2 = 2 := by
  refine ⟨by decide, rfl, rfl, by decide, by decide⟩

/-! ## C17 and C18: path patterns -/

/-- C17 (counterexample): the patterns "/block/sd?" and "/block/sd[ab]" contain
the glob metacharacters '?' and '[' respectively, and the pattern objects
constructed from them have kind Prefix, not Wildcard. -/
theorem C17_question_mark_pattern_is_prefix :
    '?' ∈ "/block/sd?".data ∧
    (PathInfo.new "/block/sd?").patternType = PatternType.prefixPattern ∧
    '[' ∈ "/block/sd[ab]".data ∧
    (PathInfo.new "/block/sd[ab]").patternType = PatternType.prefixPattern := by
  refine ⟨by decide, by decide, by decide, by decide⟩

/-- C17 (amended): for every pattern string p, the Path Pattern constructed
from p has kind Prefix if p contains no '*' and kind Wildcard if it contains
at least one '*' (the metacharacters '?' and '[' play no part); a call of
match changes neither the kind nor the pattern text. -/
theorem C17_kind_by_star_amended (p : String) :
    ('*' ∉ p.data → (PathInfo.new p).patternType = PatternType.prefixPattern) ∧
    ('*' ∈ p.data → (PathInfo.new p).patternType = PatternType.wildcardPattern) ∧
    (∀ (f : String → String → Bool) (pi : PathInfo) (path : String),
      (pi.matches f path).info.patternType = pi.patternType ∧
      (pi.matches f path).info.pattern = pi.pattern) := by
  refine ⟨?_, ?_, fun f pi path => ⟨(matches_info f pi path).2, (matches_info f pi path).1⟩⟩
  · intro h
    simp [PathInfo.new, h]
  · intro h
    simp [PathInfo.new, h]

/-- C17 (witness): "/block/sd?" has no star and "/block/sd*" has one. -/
theorem C17_kind_by_star_amended_witness :
    ('*' ∉ "/block/sd?".data ∧
      (PathInfo.new "/block/sd?").patternType = PatternType.prefixPattern) ∧
    ('*' ∈ "/block/sd*".data ∧
      (PathInfo.new "/block/sd*").patternType = PatternType.wildcardPattern) :=
  ⟨⟨by decide, (C17_kind_by_star_amended "/block/sd?").1 (by decide)⟩,
    ⟨by decide, (C17_kind_by_star_amended "/block/sd*").2.1 (by decide)⟩⟩

/-- For a list that starts with another, "the lengths differ" is "it is
longer". -/
theorem isPrefixOf_length_ne (a b : List Char) :
    (a.isPrefixOf b && (a.length != b.length))
      = (a.isPrefixOf b && decide (a.length < b.length)) := by
  by_cases hp : a.isPrefixOf b = true
  · have hle : a.length ≤ b.length := (List.isPrefixOf_iff_prefix.mp hp).length_le
    by_cases hl : a.length = b.length
    · simp [hp, hl]
    · have hlt : a.length < b.length := by omega
      simp [hp, hl, hlt]
  · simp [hp]

/-- One call of `match` on a Prefix pattern. -/
theorem matches_prefixPattern (f : String → String → Bool) (pi : PathInfo) (path : String)
    (hk : pi.patternType = PatternType.prefixPattern) :
    (pi.matches f path).ret = pi.pattern.data.isPrefixOf path.data ∧
    (pi.matches f path).warning = (!pi.warned && properExtension pi.pattern path) ∧
    (pi.matches f path).info.patternType = PatternType.prefixPattern ∧
    (pi.matches f path).info.pattern = pi.pattern ∧
    (pi.matches f path).info.warned = (pi.warned || properExtension pi.pattern path) := by
  obtain ⟨pat, ty, w⟩ := pi
  simp only at hk
  subst hk
  have hc : (!w && pat.data.isPrefixOf path.data && (pat.data.length != path.data.length))
      = (!w && properExtension pat path) := by
    rw [Bool.and_assoc, isPrefixOf_length_ne]
    rfl
  simp only [PathInfo.matches, hc]
  cases w <;> cases hx : properExtension pat path <;>
    simp only [Bool.not_false, Bool.not_true, Bool.true_and, Bool.false_and, Bool.or_false,
      Bool.or_true, Bool.false_or, Bool.true_or, if_true, and_self, Bool.false_eq_true,
      if_false]


/-- A sequence of `match` calls on a Prefix pattern: what each call returns,
and which calls log the warning. -/
theorem matchSequence_prefixPattern (f : String → String → Bool) (paths : List String) :
    ∀ pi : PathInfo, pi.patternType = PatternType.prefixPattern →
      (matchSequence f pi paths).map (fun m => m.ret)
        = paths.map (fun p => pi.pattern.data.isPrefixOf p.data) ∧
      (matchSequence f pi paths).map (fun m => m.warning)
        = (if pi.warned then paths.map (fun _ => false)
           else firstOnly (paths.map (properExtension pi.pattern))) := by
  induction paths with
  | nil =>
    intro pi _
    refine ⟨rfl, ?_⟩
    cases pi.warned <;> rfl
  | cons p rest ih =>
    intro pi hk
    obtain ⟨hret, hwarn, hk', hpat, hw'⟩ := matches_prefixPattern f pi p hk
    obtain ⟨ih1, ih2⟩ := ih (pi.matches f p).info hk'
    rw [hpat] at ih1 ih2
    rw [hw'] at ih2
    refine ⟨?_, ?_⟩
    · simp only [matchSequence, List.map_cons, hret, ih1]
    · simp only [matchSequence, List.map_cons, hwarn, ih2]
      cases pi.warned <;> cases hx : properExtension pi.pattern p <;>
        simp [firstOnly, List.map_map]

theorem firstOnly_count (l : List Bool) :
    (firstOnly l).count true = if l.any id then 1 else 0 := by
  induction l with
  | nil => rfl
  | cons b rest ih =>
    cases b
    · simp only [firstOnly, List.any_cons, id, Bool.false_or]
      rw [List.count_cons_of_ne (by decide), ih]
    · have hz : ∀ r : List Bool, (r.map (fun _ => false)).count true = 0 := by
        intro r
        induction r with
        | nil => rfl
        | cons c r ihr =>
          rw [List.map_cons, List.count_cons_of_ne (by decide), ihr]
      simp only [firstOnly, List.any_cons, id, Bool.true_or, if_true]
      rw [List.count_cons_self, hz]

theorem firstOnly_getElem (l : List Bool) :
    ∀ i : Nat, (firstOnly l)[i]? = some true → l[i]? = some true := by
  induction l with
  | nil => intro i h; simp [firstOnly] at h
  | cons b rest ih =>
    intro i h
    cases b
    · cases i with
      | zero => simp [firstOnly] at h
      | succ i =>
        simp only [firstOnly, List.getElem?_cons_succ] at h
        simpa using ih i h
    · cases i with
      | zero => simp
      | succ i =>
        exfalso
        simp only [firstOnly, List.getElem?_cons_succ, List.getElem?_map] at h
        cases hr : rest[i]? with
        | none => rw [hr] at h; cases h
        | some c => rw [hr] at h; cases h

theorem properExtension_self (x : String) : properExtension x x = false := by
  unfold properExtension
  simp

/-- C18: for every Prefix pattern X whose warning has not been given yet (as
after construction) and every sequence of match calls on that one pattern
object: each call match(p) returns true iff p starts with X; the calls that
log the deprecation warning are exactly the first call whose p starts with X
and is longer than X, if there is one; so a call with p equal to X never logs
it, and over the whole sequence it is logged once if some call has such a p
and not at all otherwise. -/
theorem C18_prefix_match_sequence (f : String → String → Bool) (pi : PathInfo)
    (paths : List String)
    (hk : pi.patternType = PatternType.prefixPattern) (hw : pi.warned = false) :
    (matchSequence f pi paths).map (fun m => m.ret)
      = paths.map (fun p => pi.pattern.data.isPrefixOf p.data) ∧
    (matchSequence f pi paths).map (fun m => m.warning)
      = firstOnly (paths.map (properExtension pi.pattern)) ∧
    (∀ (i : Nat) (m : MatchResult), (matchSequence f pi paths)[i]? = some m →
      paths[i]? = some pi.pattern → m.warning = false) ∧
    ((matchSequence f pi paths).map (fun m => m.warning)).count true
      = (if paths.any (properExtension pi.pattern) then 1 else 0) := by
  obtain ⟨h1, h2⟩ := matchSequence_prefixPattern f paths pi hk
  rw [hw] at h2
  simp only [Bool.false_eq_true, if_false] at h2
  refine ⟨h1, h2, ?_, ?_⟩
  · intro i m hm hp
    by_contra hne
    have hmw : m.warning = true := by simpa using hne
    have hi : ((matchSequence f pi paths).map (fun m => m.warning))[i]? = some true := by
      rw [List.getElem?_map, hm]
      simp [hmw]
    rw [h2] at hi
    have := firstOnly_getElem _ i hi
    rw [List.getElem?_map, hp] at this
    simp [properExtension_self] at this
  · rw [h2, firstOnly_count]
    simp [List.any_map]

/-- C18 (witness): the pattern object constructed from "/block/sda", matched
against "/block/sda", "/block/sda/sda1", "/block/sdb" and "/block/sda/sda2":
three matches, one warning, at the second call. -/
theorem C18_prefix_match_sequence_witness :
    (PathInfo.new "/block/sda").patternType = PatternType.prefixPattern ∧
    (PathInfo.new "/block/sda").warned = false ∧
    (matchSequence sampleEnv.fnmatch (PathInfo.new "/block/sda")
        ["/block/sda", "/block/sda/sda1", "/block/sdb", "/block/sda/sda2"]).map
        (fun m => m.ret)
      = [true, true, false, true] ∧
    (matchSequence sampleEnv.fnmatch (PathInfo.new "/block/sda")
        ["/block/sda", "/block/sda/sda1", "/block/sdb", "/block/sda/sda2"]).map
        (fun m => m.warning)
      = [false, true, false, false] ∧
    ((matchSequence sampleEnv.fnmatch (PathInfo.new "/block/sda")
        ["/block/sda", "/block/sda/sda1", "/block/sdb", "/block/sda/sda2"]).map
        (fun m => m.warning)).count true = 1 :=
  ⟨by decide, rfl,
    (C18_prefix_match_sequence sampleEnv.fnmatch (PathInfo.new "/block/sda")
      ["/block/sda", "/block/sda/sda1", "/block/sdb", "/block/sda/sda2"]
      (by decide) rfl).1.trans (by decide),
    (C18_prefix_match_sequence sampleEnv.fnmatch (PathInfo.new "/block/sda")
      ["/block/sda", "/block/sda/sda1", "/block/sdb", "/block/sda/sda2"]
      (by decide) rfl).2.1.trans (by decide),
    (C18_prefix_match_sequence sampleEnv.fnmatch (PathInfo.new "/block/sda")
      ["/block/sda", "/block/sda/sda1", "/block/sdb", "/block/sda/sda2"]
      (by decide) rfl).2.2.2.trans (by decide)⟩

/-! ## C19: device-node creation failure -/

/-- C19: for every volume and every Add event, the run of handle_block_event
in which createDeviceNode fails (returns non-zero) and the run in which it
succeeds (returns 0), the other collaborators answering alike, differ in
whether the error is logged and in nothing else: they produce the same return
value and errno, the same resulting volume and the same collaborator calls,
hence the same notifications. -/
theorem C19_node_creation_failure_ignored (cfg : BuildConfig) (env : Collaborators)
    (v : Volume) (evt : NetlinkEvent) (fails succeeds : Int → Int → Int)
    (_hadd : evt.action = Action.NlActionAdd)
    (hf : fails evt.MAJOR evt.MINOR ≠ 0) (hs : succeeds evt.MAJOR evt.MINOR = 0) :
    nodeCreationErrorLogged (withCreateDeviceNode env fails) evt = true ∧
    nodeCreationErrorLogged (withCreateDeviceNode env succeeds) evt = false ∧
    handleBlockEvent cfg (withCreateDeviceNode env fails) v evt
      = handleBlockEvent cfg (withCreateDeviceNode env succeeds) v evt := by
  refine ⟨?_, ?_, rfl⟩
  · simp [nodeCreationErrorLogged, withCreateDeviceNode, hf]
  · simp [nodeCreationErrorLogged, withCreateDeviceNode, hs]

/-- C19 (witness): the Add event of partition 2 on the Pending two-partition
sample volume, with a createDeviceNode that returns -1 and one that returns
0. -/
theorem C19_node_creation_failure_ignored_witness :
    ((fun _ _ => -1 : Int → Int → Int) 8 2 ≠ 0) ∧
    handleBlockEvent plainBuild (withCreateDeviceNode sampleEnv (fun _ _ => -1))
        (twoPartVolume State.Pending)
        (partitionEvent Action.NlActionAdd "/block/sda/sda1" 2 2)
      = handleBlockEvent plainBuild (withCreateDeviceNode sampleEnv (fun _ _ => 0))
        (twoPartVolume State.Pending)
        (partitionEvent Action.NlActionAdd "/block/sda/sda1" 2 2) ∧
    (handleBlockEvent plainBuild (withCreateDeviceNode sampleEnv (fun _ _ => -1))
        (twoPartVolume State.Pending)
        (partitionEvent Action.NlActionAdd "/block/sda/sda1" 2 2)).map
        (fun r => (r.ret, r.vol.mState, r.vol.mPartMinors, r.effects))
      = some (0, State.Idle, [1, 2, -1, -1],
          [Effect.createDeviceNode 8 2,
            Effect.sendBroadcast ResponseCode.VolumeDiskInserted 8 0]) :=
  ⟨by decide,
    (C19_node_creation_failure_ignored plainBuild sampleEnv (twoPartVolume State.Pending)
      (partitionEvent Action.NlActionAdd "/block/sda/sda1" 2 2) (fun _ _ => -1)
      (fun _ _ => 0) rfl (by decide) rfl).2.2,
    by decide⟩

/-! ## C20: removal reaches a terminal state -/

/-- The partition-removal handler leaves `mDevPath` alone and sends at most
the VolumeBadRemoval notification. -/
theorem handlePartitionRemoved_spec (env : Collaborators) (v : Volume) (evt : NetlinkEvent) :
    (handlePartitionRemoved env v evt).1.mDevPath = v.mDevPath ∧
    (notifications (handlePartitionRemoved env v evt).2 = [] ∨
      notifications (handlePartitionRemoved env v evt).2 = [ResponseCode.VolumeBadRemoval]) := by
  unfold handlePartitionRemoved
  dsimp only
  split
  · exact ⟨rfl, Or.inl rfl⟩
  · split
    · refine ⟨rfl, Or.inr ?_⟩
      by_cases ha : v.providesAsec = true <;> simp [ha, notifications]
    · split
      · exact ⟨rfl, Or.inr rfl⟩
      · exact ⟨rfl, Or.inl rfl⟩

/-- C20: for every Remove event that dispatch accepts (a pattern matches and
dev_path equals the event's path), and whatever the collaborators answer to
the secondary-asset cleanup, the forced unmount, the share query and the
unshare calls, handle_block_event returns 0, the resulting state is NoMedia,
dev_path is unset, and exactly one VolumeDiskRemoved notification is
emitted. -/
theorem C20_removal_reaches_no_media (cfg : BuildConfig) (env : Collaborators)
    (v : Volume) (evt : NetlinkEvent)
    (hrem : evt.action = Action.NlActionRemove)
    (hmatch : patternMatches env v evt = true)
    (hpath : v.mDevPath = some evt.DEVPATH) :
    ∃ r, handleBlockEvent cfg env v evt = some r ∧ r.ret = 0 ∧ r.errno = none ∧
      r.vol.mState = State.NoMedia ∧ r.vol.mDevPath = none ∧
      (notifications r.effects).count ResponseCode.VolumeDiskRemoved = 1 := by
  have hp := handlePartitionRemoved_spec env (afterScan env v evt).clearDevPath evt
  have hd := handleDiskRemoved_spec env
    (handlePartitionRemoved env (afterScan env v evt).clearDevPath evt).1 evt
  rw [handleBlockEvent_remove cfg env v evt ⟨hmatch, Or.inl hpath⟩ hrem]
  refine ⟨_, rfl, rfl, rfl, hd.1, ?_, ?_⟩
  · rw [hd.2.2.2.1, hp.1]
    rfl
  · simp only [notifications_append, hd.2.1]
    rcases hp.2 with h | h <;> rw [h] <;> decide

/-- C20 (witness): the Remove event of partition (8,1) on the sample volume
shared over USB, with collaborators whose unmount and unshare calls fail and
leave the state Shared. -/
theorem C20_removal_reaches_no_media_witness :
    patternMatches sampleEnv (attachedVolume State.Shared (-1))
      (partitionEvent Action.NlActionRemove "/block/sda/sda1" 1 1) = true ∧
    ∃ r, handleBlockEvent plainBuild
        { sampleEnv with
          unmountVol := fun u _ _ => ⟨-1, u.mState, u.mCurrentlyMountedKdev, u.mRetryMount⟩
          unshareVolume := fun u => ⟨-1, u.mState, u.mCurrentlyMountedKdev, u.mRetryMount⟩
          shareEnabled := fun _ => (0, true) }
        (attachedVolume State.Shared (-1))
        (partitionEvent Action.NlActionRemove "/block/sda/sda1" 1 1) = some r ∧
      r.ret = 0 ∧ r.errno = none ∧
      r.vol.mState = State.NoMedia ∧ r.vol.mDevPath = none ∧
      (notifications r.effects).count ResponseCode.VolumeDiskRemoved = 1 :=
  ⟨by decide,
    C20_removal_reaches_no_media plainBuild _ (attachedVolume State.Shared (-1))
      (partitionEvent Action.NlActionRemove "/block/sda/sda1" 1 1) rfl (by decide) rfl⟩

/-! ## C21: the partition-number bound -/

theorem foldl_addPath_fields (paths : List String) :
    ∀ v : Volume, (paths.foldl addPath v).mDevPath = v.mDevPath ∧
      (paths.foldl addPath v).mState = v.mState ∧
      (paths.foldl addPath v).mDiskNumParts = v.mDiskNumParts ∧
      (paths.foldl addPath v).mPartMinors = v.mPartMinors := by
  induction paths with
  | nil => intro v; exact ⟨rfl, rfl, rfl, rfl⟩
  | cons p rest ih =>
    intro v
    simp only [List.foldl_cons]
    obtain ⟨h1, h2, h3, h4⟩ := ih (addPath v p)
    exact ⟨h1, h2, h3, h4⟩

theorem handleDiskChanged_mDevPath (cfg : BuildConfig) (v : Volume) (evt : NetlinkEvent) :
    (handleDiskChanged cfg v evt).mDevPath = v.mDevPath := by
  unfold handleDiskChanged
  dsimp only
  split
  · rfl
  · split
    · split <;> rfl
    · rfl

/-- Every volume reached by a run of events from a reachable volume is
reachable. -/
theorem reachable_runEvents (cfg : BuildConfig) (env : Collaborators)
    (evts : List NetlinkEvent) :
    ∀ v w : Volume, Reachable cfg v → runEvents cfg env v evts = some w → Reachable cfg w := by
  induction evts with
  | nil =>
    intro v w hv h
    simp only [runEvents, Option.some.injEq] at h
    rw [← h]
    exact hv
  | cons e rest ih =>
    intro v w hv h
    simp only [runEvents] at h
    cases hr : handleBlockEvent cfg env v e with
    | none => rw [hr] at h; cases h
    | some r =>
      rw [hr] at h
      exact ih r.vol w (Reachable.step env v e r hv hr) h

/-- One call of `handleBlockEvent` keeps the property "`mDevPath` unset
implies state NoMedia or, under MOUNT_MULTI_PART, state Pending or Idle": a
call that leaves `mDevPath` unset has either changed nothing but `warned`
flags, or run the removal handlers, or (under MOUNT_MULTI_PART) returned right
after the disk handler. -/
theorem step_keeps_detached_states (cfg : BuildConfig) (env : Collaborators)
    (v : Volume) (evt : NetlinkEvent) (r : Outcome)
    (h : handleBlockEvent cfg env v evt = some r)
    (hinv : v.mDevPath = none → v.mState = State.NoMedia ∨
      (cfg.MOUNT_MULTI_PART = true ∧ (v.mState = State.Pending ∨ v.mState = State.Idle))) :
    r.vol.mDevPath = none → r.vol.mState = State.NoMedia ∨
      (cfg.MOUNT_MULTI_PART = true ∧
        (r.vol.mState = State.Pending ∨ r.vol.mState = State.Idle)) := by
  unfold handleBlockEvent at h
  simp only at h
  split at h
  · split at h
    · cases h
      exact hinv
    · cases ha : evt.action with
      | NlActionAdd =>
        rw [ha] at h
        simp only at h
        unfold handleAdd at h
        simp only at h
        split at h
        · cases h
          exact hinv
        · split at h
          · rename_i hdm
            simp only [Bool.and_eq_true, decide_eq_true_eq] at hdm
            cases h
            intro _
            refine Or.inr ⟨hdm.2, ?_⟩
            simp only [hdm.1, decide_True, if_true]
            rw [handleDiskAdded_state]
            split
            · exact Or.inr rfl
            · exact Or.inl rfl
          · split at h
            · cases h
            · cases h
              intro hnone
              cases hnone
      | NlActionRemove =>
        rw [ha] at h
        simp only at h
        split at h
        · cases h
          exact hinv
        · cases h
          intro _
          exact Or.inl (handleDiskRemoved_spec env _ evt).1
      | NlActionChange =>
        rw [ha] at h
        simp only at h
        split at h
        · cases h
          exact hinv
        · rename_i hsome
          split at h
          · cases h
            intro hnone
            rw [handleDiskChanged_mDevPath] at hnone
            exact absurd hnone hsome
          · cases h
            intro hnone
            exact absurd hnone hsome
      | NlActionUnknown =>
        rw [ha] at h
        simp only at h
        split at h
        · cases h
          exact hinv
        · cases h
          exact hinv
  · cases h
    exact hinv

/-- C22 (counterexample): in the build with MOUNT_MULTI_PART the fresh sample
volume accepts the Add event of disk (8,0); handle_block_event runs the disk
handler and returns -1 before dev_path is set.  With NPARTS = 1 the reachable
state afterwards is Pending with dev_path unset, with NPARTS = 0 it is Idle
with dev_path unset: dev_path unset does not imply NoMedia. -/
theorem C22_multi_part_detached_not_no_media :
    (accepts sampleEnv (freshVolume multiPartBuild) (diskAdd (some 1)) ∧
      (handleBlockEvent multiPartBuild sampleEnv (freshVolume multiPartBuild)
          (diskAdd (some 1))).map (fun r => (r.ret, r.vol.mState, r.vol.mDevPath))
        = some (-1, State.Pending, none) ∧
      ∃ v, Reachable multiPartBuild v ∧ v.mDevPath = none ∧ v.mState = State.Pending ∧
        v.mState ≠ State.NoMedia) ∧
    (accepts sampleEnv (freshVolume multiPartBuild) (diskAdd (some 0)) ∧
      (handleBlockEvent multiPartBuild sampleEnv (freshVolume multiPartBuild)
          (diskAdd (some 0))).map (fun r => (r.ret, r.vol.mState, r.vol.mDevPath))
        = some (-1, State.Idle, none) ∧
      ∃ v, Reachable multiPartBuild v ∧ v.mDevPath = none ∧ v.mState = State.Idle ∧
        v.mState ≠ State.NoMedia) :=
  ⟨⟨by decide, rfl,
      _, Reachable.step sampleEnv (freshVolume multiPartBuild) (diskAdd (some 1)) _
        (Reachable.fresh sampleBase ["/block/sda"]) rfl,
      rfl, rfl, by decide⟩,
    ⟨by decide, rfl,
      _, Reachable.step sampleEnv (freshVolume multiPartBuild) (diskAdd (some 0)) _
        (Reachable.fresh sampleBase ["/block/sda"]) rfl,
      rfl, rfl, by decide⟩⟩

/-- C22 (amended): in every build, in every state reachable from a freshly
constructed volume by any sequence of handle_block_event calls, successful or
failing and with any collaborators, dev_path unset implies state NoMedia or,
only in a build with MOUNT_MULTI_PART, state Pending or Idle (the state in
which the Add event of a disk leaves the volume there, since the call returns
before dev_path is set).  Without MOUNT_MULTI_PART dev_path unset implies
state NoMedia. -/
theorem C22_detached_states_amended (cfg : BuildConfig) (v : Volume)
    (hr : Reachable cfg v) (hnone : v.mDevPath = none) :
    (v.mState = State.NoMedia ∨
      (cfg.MOUNT_MULTI_PART = true ∧ (v.mState = State.Pending ∨ v.mState = State.Idle))) ∧
    (cfg.MOUNT_MULTI_PART = false → v.mState = State.NoMedia) := by
  have key : ∀ w : Volume, Reachable cfg w → w.mDevPath = none →
      w.mState = State.NoMedia ∨
        (cfg.MOUNT_MULTI_PART = true ∧ (w.mState = State.Pending ∨ w.mState = State.Idle)) := by
    intro w hw
    induction hw with
    | fresh b paths =>
      intro _
      rw [(foldl_addPath_fields paths (construct cfg b)).2.1]
      exact Or.inl rfl
    | step env u evt r _ h ih =>
      exact step_keeps_detached_states cfg env u evt r h ih
  refine ⟨key v hr hnone, ?_⟩
  intro hb
  rcases key v hr hnone with h | ⟨h, _⟩
  · exact h
  · rw [hb] at h
    cases h

/-- C22 (witness): without MOUNT_MULTI_PART the sample volume after the Add
and the Remove of disk (8,0) is reachable, has no dev_path, and is in state
NoMedia; with MOUNT_MULTI_PART the sample volume after the Add of disk (8,0)
is reachable, has no dev_path, and is in state Pending. -/
theorem C22_detached_states_amended_witness :
    (Reachable plainBuild removedVolume ∧
      removedVolume.mDevPath = none ∧
      removedVolume.mState = State.NoMedia) ∧
    (Reachable multiPartBuild (handleDiskAdded multiPartBuild (freshVolume multiPartBuild)
        (diskAdd (some 1))) ∧
      (handleDiskAdded multiPartBuild (freshVolume multiPartBuild)
        (diskAdd (some 1))).mDevPath = none ∧
      ((handleDiskAdded multiPartBuild (freshVolume multiPartBuild)
          (diskAdd (some 1))).mState = State.NoMedia ∨
        (multiPartBuild.MOUNT_MULTI_PART = true ∧
          ((handleDiskAdded multiPartBuild (freshVolume multiPartBuild)
              (diskAdd (some 1))).mState = State.Pending ∨
            (handleDiskAdded multiPartBuild (freshVolume multiPartBuild)
              (diskAdd (some 1))).mState = State.Idle)))) :=
  ⟨⟨reachable_runEvents plainBuild sampleEnv [diskAdd (some 1), diskRemove]
      (freshVolume plainBuild) removedVolume (Reachable.fresh sampleBase ["/block/sda"])
      (by decide),
    rfl,
    (C22_detached_states_amended plainBuild removedVolume
      (reachable_runEvents plainBuild sampleEnv [diskAdd (some 1), diskRemove]
        (freshVolume plainBuild) removedVolume (Reachable.fresh sampleBase ["/block/sda"])
        (by decide))
      rfl).2 rfl⟩,
    ⟨reachable_runEvents multiPartBuild sampleEnv [diskAdd (some 1)]
      (freshVolume multiPartBuild) _ (Reachable.fresh sampleBase ["/block/sda"]) (by decide),
    rfl,
    (C22_detached_states_amended multiPartBuild _
      (reachable_runEvents multiPartBuild sampleEnv [diskAdd (some 1)]
        (freshVolume multiPartBuild) _ (Reachable.fresh sampleBase ["/block/sda"])
        (by decide))
      rfl).1⟩⟩

/-- The converse of the invariant fails: the Add event of partition (8,1) on
the fresh volume is dropped by the partition handler (the disk major is still
-1) but sets dev_path, so a reachable volume has a dev_path in state
NoMedia. -/
theorem reachable_noMedia_with_dev_path :
    ∃ v, Reachable plainBuild v ∧ v.mState = State.NoMedia ∧
      v.mDevPath = some "/block/sda/sda1" :=
  ⟨_, Reachable.step sampleEnv (freshVolume plainBuild)
      (partitionEvent Action.NlActionAdd "/block/sda/sda1" 1 1) _
      (Reachable.fresh sampleBase ["/block/sda"]) rfl,
    rfl, rfl⟩

/-- C23 (the code at the failing input): in the build without
MOUNT_MULTI_PART and with MAX_PARTITIONS = 4, the Add event of disk (8,0) with
NPARTS = 7 takes the fresh whole-set volume to a reachable state with
disk_num_parts = 7 > MAX_PARTITIONS; there get_device_nodes(8) reads
part_minors at index 4, outside the array.  In the build with
MOUNT_MULTI_PART the Add event of a disk with NPARTS = -2 leaves
disk_num_parts = -2 < 0. -/
theorem C23_disk_num_parts_unbounded :
    runEvents plainBuild sampleEnv (freshVolume plainBuild) [diskAdd (some 7)]
      = some sevenPartVolume ∧
    Reachable plainBuild sevenPartVolume ∧
    sevenPartVolume.mPartIdx = -1 ∧
    sevenPartVolume.mDiskNumParts = 7 ∧
    (plainBuild.MAX_PARTITIONS : Int) < sevenPartVolume.mDiskNumParts ∧
    loadSlot plainBuild.MAX_PARTITIONS sevenPartVolume.mPartMinors 4 = none ∧
    getDeviceNodes plainBuild sampleEnv sevenPartVolume 8 = none ∧
    (runEvents multiPartBuild sampleEnv (freshVolume multiPartBuild)
        [diskAdd (some (-2))]).map (fun w => w.mDiskNumParts) = some (-2) := by
  have hrun : runEvents plainBuild sampleEnv (freshVolume plainBuild) [diskAdd (some 7)]
      = some sevenPartVolume := by decide
  exact ⟨hrun,
    reachable_runEvents plainBuild sampleEnv [diskAdd (some 7)] (freshVolume plainBuild)
      sevenPartVolume (Reachable.fresh sampleBase ["/block/sda"]) hrun,
    rfl, rfl, by decide, by decide, by decide, by decide⟩

/-! ## C24: what revert leaves alone -/

/-- An event whose device path no pattern matches fails with ENODEV. -/
theorem handleBlockEvent_no_match (cfg : BuildConfig) (env : Collaborators) (v : Volume)
    (evt : NetlinkEvent) (hm : patternMatches env v evt = false) :
    handleBlockEvent cfg env v evt = some (noSuchDevice (afterScan env v evt)) := by
  unfold patternMatches at hm
  unfold handleBlockEvent
  simp [scanPaths_fst, hm]

/-- C24: revert_device_info leaves the path patterns, dev_path, disk_num_parts
and the lifecycle state of every volume unchanged; so after a successful
update_device_info(new_path, ...) followed by revert_device_info the volume's
single path pattern is still the one built from new_path, handle_block_event
matches an event exactly when that pattern matches its device path, and an
event that only the original pattern would match fails with ENODEV. -/
theorem C24_revert_keeps_patterns (cfg : BuildConfig) (env : Collaborators)
    (v w : Volume) (new_path : String) (new_major new_minor : Int) (evt : NetlinkEvent)
    (h : updateDeviceInfo cfg v new_path new_major new_minor = some (0, w)) :
    (∀ u : Volume, (revertDeviceInfo u).mPaths = u.mPaths ∧
      (revertDeviceInfo u).mDevPath = u.mDevPath ∧
      (revertDeviceInfo u).mDiskNumParts = u.mDiskNumParts ∧
      (revertDeviceInfo u).mState = u.mState) ∧
    (revertDeviceInfo w).mPaths = [PathInfo.new new_path] ∧
    patternMatches env (revertDeviceInfo w) evt
      = ((PathInfo.new new_path).matches env.fnmatch evt.DEVPATH).ret ∧
    (((PathInfo.new new_path).matches env.fnmatch evt.DEVPATH).ret = false →
      ∃ r, handleBlockEvent cfg env (revertDeviceInfo w) evt = some r ∧
        r.ret = -1 ∧ r.errno = some Errno.ENODEV ∧ r.effects = []) := by
  have hframe : ∀ u : Volume, (revertDeviceInfo u).mPaths = u.mPaths ∧
      (revertDeviceInfo u).mDevPath = u.mDevPath ∧
      (revertDeviceInfo u).mDiskNumParts = u.mDiskNumParts ∧
      (revertDeviceInfo u).mState = u.mState := by
    intro u
    unfold revertDeviceInfo
    split <;> exact ⟨rfl, rfl, rfl, rfl⟩
  obtain ⟨_, _, _, _, hw⟩ := updateDeviceInfo_eq_some_zero cfg v w new_path new_major new_minor h
  have hpaths : (revertDeviceInfo w).mPaths = [PathInfo.new new_path] := by
    rw [(hframe w).1, hw]
  have hpm : patternMatches env (revertDeviceInfo w) evt
      = ((PathInfo.new new_path).matches env.fnmatch evt.DEVPATH).ret := by
    unfold patternMatches
    rw [hpaths]
    simp
  refine ⟨hframe, hpaths, hpm, ?_⟩
  intro hno
  rw [handleBlockEvent_no_match cfg env _ evt (hpm.trans hno)]
  exact ⟨_, rfl, rfl, rfl, rfl⟩

/-- C24 (witness): the single-partition sample volume (pattern "/block/sda")
switched to "/block/dm-2" and reverted: the only pattern is still
"/block/dm-2", and the Add event of partition (8,1) under "/block/sda/sda1",
which the original pattern matches, now fails with ENODEV. -/
theorem C24_revert_keeps_patterns_witness :
    ∃ w, updateDeviceInfo plainBuild singlePartVolume "/block/dm-2" 254 2 = some (0, w) ∧
      (singlePartVolume.mPaths.map (fun p => p.pattern) = ["/block/sda"]) ∧
      patternMatches sampleEnv singlePartVolume
        (partitionEvent Action.NlActionAdd "/block/sda/sda1" 1 1) = true ∧
      (revertDeviceInfo w).mPaths = [PathInfo.new "/block/dm-2"] ∧
      patternMatches sampleEnv (revertDeviceInfo w)
          (partitionEvent Action.NlActionAdd "/block/sda/sda1" 1 1) = false ∧
      ∃ r, handleBlockEvent plainBuild sampleEnv (revertDeviceInfo w)
          (partitionEvent Action.NlActionAdd "/block/sda/sda1" 1 1) = some r ∧
        r.ret = -1 ∧ r.errno = some Errno.ENODEV ∧ r.effects = [] :=
  ⟨_, rfl, rfl, by decide,
    (C24_revert_keeps_patterns plainBuild sampleEnv singlePartVolume _ "/block/dm-2" 254 2
      (partitionEvent Action.NlActionAdd "/block/sda/sda1" 1 1) rfl).2.1,
    by decide,
    (C24_revert_keeps_patterns plainBuild sampleEnv singlePartVolume _ "/block/dm-2" 254 2
      (partitionEvent Action.NlActionAdd "/block/sda/sda1" 1 1) rfl).2.2.2 (by decide)⟩

end DirectVolume
